import Mathlib

/-!
# GraphicGram: a verification development

A shallow embedding of the session, feed and like/save logic of the GraphicGram
clients and of the route table of its API server, followed by theorems about
them.

* `GraphicGram.Web`     : `src/context/AuthContext.js`, `src/App.js`,
  `src/components/Post.js`, `src/pages/Home.js` (React web client)
* `GraphicGram.IOS`     : `AuthViewModel` of the SwiftUI client
* `GraphicGram.Backend` : the mounts of `server.js`
* `GraphicGram.Mongoose`, `GraphicGram.Models`, `GraphicGram.Database` : the
  document schemas of `models/Post.js` and of the database schema file, with
  the validation rules that decide what they accept

Conventions of the embedding.

* An `async` handler is embedded as the state transformer of one *completed*
  invocation. The reply of the single request it awaits is an argument
  (`reply`), so the theorems quantify over every server behaviour. `checkAuth`
  is also given in its two parts, before and after its `await`, for the runs in
  which a login completes in between.
* React state setters become record updates; `localStorage` and
  `axios.defaults.headers.common` are explicit key/value maps in `Browser`.
* JSON envelopes follow the convention `{ success, message?, ...payload }`:
  `success` is a boolean, the other fields may be missing (`none`).
* JavaScript counters are `Int` (they stay far inside the exact integer range
  of a JS number).
-/

namespace GraphicGram

namespace Web

/-! ## JavaScript values used by the web client -/

/-- Truthiness of a value that is a string, `null` or `undefined`:
only a non-empty string is truthy. -/
def truthy : Option String → Bool
  | none => false
  | some s => s != ""

/-- The expression `v || d` where `v` is a string or `undefined` and `d` a string. -/
def orDefault (v : Option String) (d : String) : String :=
  match v with
  | some s => if truthy (some s) then s else d
  | none => d

/-- String conversion as done by a template literal and by `localStorage.setItem`
on a value that is a string or `undefined`. -/
def toStr : Option String → String
  | none => "undefined"
  | some s => s

/-- A string-keyed store of strings: the shape of both `localStorage` and
`axios.defaults.headers.common`. -/
abbrev Store := String → Option String

/-- The call `localStorage.getItem(key)` (`none` is `null`). -/
def Store.getItem (st : Store) (key : String) : Option String := st key

/-- The call `localStorage.setItem(key, value)`, or `headers[key] = value`. -/
def Store.setItem (st : Store) (key value : String) : Store :=
  fun k => if k = key then some value else st k

/-- The call `localStorage.removeItem(key)`, or `delete headers[key]`. -/
def Store.removeItem (st : Store) (key : String) : Store :=
  fun k => if k = key then none else st k

/-- The store with no key. -/
def Store.empty : Store := fun _ => none

/-- A user object as the web client reads it (`user.id`, `post.user.username`). -/
structure User where
  id : String
  username : String
  deriving DecidableEq, Repr

/-- A comment object; its shape is not inspected by the components embedded here. -/
structure Comment where
  _id : String
  text : String
  deriving DecidableEq, Repr

/-- A post object as delivered by the feed endpoint and read by `Post`.
`comments` may be missing (`post.comments || []`). -/
structure Post where
  _id : String
  likes : List String
  comments : Option (List Comment)
  deriving DecidableEq, Repr

/-- The body of a response, `response.data`. -/
structure ResponseData where
  success : Bool
  message : Option String
  token : Option String
  user : Option User
  posts : Option (List Post)
  deriving DecidableEq, Repr

/-- The `response` attached to a rejected axios request, when there is one. -/
structure ErrorResponse where
  data : Option ResponseData
  deriving DecidableEq, Repr

/-- The value thrown inside a `try` block: an axios error with or without a
`response`, or any other exception (no `response`). -/
structure RequestError where
  response : Option ErrorResponse
  deriving DecidableEq, Repr

/-- The expression `error.response?.data?.message`. -/
def RequestError.message (error : RequestError) : Option String :=
  match error.response with
  | none => none
  | some response =>
    match response.data with
    | none => none
    | some data => data.message

/-- What awaiting a request gives: a response body, or a thrown error. -/
inductive Outcome where
  | resolved (data : ResponseData)
  | rejected (error : RequestError)
  deriving DecidableEq, Repr

/-- An outgoing request: verb, URL, JSON body fields and the `Authorization`
header axios attaches from its defaults. -/
structure Request where
  method : String
  url : String
  data : List (String × String)
  authorization : Option String
  deriving DecidableEq, Repr

/-- The part of the browser the client code touches: `localStorage`,
`axios.defaults.headers.common` and the requests sent so far. -/
structure Browser where
  localStorage : Store
  headers : Store
  sent : List Request

/-- The browser at page load: the given `localStorage`, no `Authorization`
default header, nothing sent yet. -/
def Browser.fresh (localStorage : Store) : Browser :=
  { localStorage := localStorage, headers := Store.empty, sent := [] }

/-- The request axios builds from a verb, a URL and a body with the current defaults. -/
def Browser.request (b : Browser) (method url : String) (data : List (String × String)) :
    Request :=
  { method := method, url := url, data := data,
    authorization := b.headers.getItem "Authorization" }

/-- The call `await axios.get(url)`: one request is sent, the server's `reply` comes back. -/
def axiosGet (url : String) (reply : Outcome) (b : Browser) : Outcome × Browser :=
  (reply, { b with sent := b.sent ++ [b.request "GET" url []] })

/-- The call `await axios.post(url, data)`. -/
def axiosPost (url : String) (data : List (String × String)) (reply : Outcome)
    (b : Browser) : Outcome × Browser :=
  (reply, { b with sent := b.sent ++ [b.request "POST" url data] })

/-! ## `AuthProvider` (src/context/AuthContext.js) -/

/-- The React state of `AuthProvider`: `user`, `loading`, `error`. -/
structure AuthState where
  user : Option User
  loading : Bool
  error : Option String
  deriving DecidableEq, Repr

/-- The initial values given to `useState`. -/
def AuthState.initial : AuthState :=
  { user := none, loading := true, error := none }

/-- The two statements that clear an invalid token, and the first two of `logout`. -/
def clearToken (b : Browser) : Browser :=
  { b with
    localStorage := b.localStorage.removeItem "token"
    headers := b.headers.removeItem "Authorization" }

/-- The success branch shared by `login` and `signup`: store the token, set the header. -/
def saveToken (token : Option String) (b : Browser) : Browser :=
  { b with
    localStorage := b.localStorage.setItem "token" (toStr token)
    headers := b.headers.setItem "Authorization" ("Bearer " ++ toStr token) }

/-- The effect `checkAuth` run on mount. -/
def checkAuth (reply : Outcome) (b : Browser) (s : AuthState) : Browser × AuthState :=
  let token := b.localStorage.getItem "token"
  let r : Browser × AuthState :=
    if truthy token then
      let b1 := { b with headers := b.headers.setItem "Authorization" ("Bearer " ++ toStr token) }
      let (response, b2) := axiosGet "/api/auth/me" reply b1
      match response with
      | .resolved data =>
        if data.success then (b2, { s with user := data.user })
        else (clearToken b2, s)
      | .rejected _ => (clearToken b2, s)
    else (b, s)
  (r.1, { r.2 with loading := false })

/-- The part of `checkAuth` that runs before its `await`: the token is read and,
when it is truthy, the header is set and the request is sent; the flag tells
whether the request is now pending. With no token `checkAuth` ends here. -/
def checkAuthStart (b : Browser) (s : AuthState) : Bool × Browser × AuthState :=
  let token := b.localStorage.getItem "token"
  if truthy token then
    let b1 := { b with headers := b.headers.setItem "Authorization" ("Bearer " ++ toStr token) }
    (true, { b1 with sent := b1.sent ++ [b1.request "GET" "/api/auth/me" []] }, s)
  else (false, b, { s with loading := false })

/-- The part of `checkAuth` that runs when the awaited request settles, on the
state of that moment. -/
def checkAuthSettle (reply : Outcome) (b : Browser) (s : AuthState) : Browser × AuthState :=
  match reply with
  | .resolved data =>
    if data.success then (b, { s with user := data.user, loading := false })
    else (clearToken b, { s with loading := false })
  | .rejected _ => (clearToken b, { s with loading := false })

/-- The function `login(identifier, password)`: the returned flag and the new state. -/
def login (identifier password : String) (reply : Outcome) (b : Browser) (s : AuthState) :
    Bool × Browser × AuthState :=
  let s1 := { s with error := none }
  let (response, b1) :=
    axiosPost "/api/auth/login" [("identifier", identifier), ("password", password)] reply b
  match response with
  | .resolved data =>
    if data.success then
      (true, saveToken data.token b1, { s1 with user := data.user })
    else
      (false, b1, { s1 with error := some (orDefault data.message "Login failed") })
  | .rejected error =>
    (false, b1, { s1 with error := some (orDefault error.message "An error occurred") })

/-- The function `signup(userData)`: the returned flag and the new state. -/
def signup (userData : List (String × String)) (reply : Outcome) (b : Browser)
    (s : AuthState) : Bool × Browser × AuthState :=
  let s1 := { s with error := none }
  let (response, b1) := axiosPost "/api/auth/register" userData reply b
  match response with
  | .resolved data =>
    if data.success then
      (true, saveToken data.token b1, { s1 with user := data.user })
    else
      (false, b1, { s1 with error := some (orDefault data.message "Signup failed") })
  | .rejected error =>
    (false, b1, { s1 with error := some (orDefault error.message "An error occurred") })

/-- The function `logout()`. -/
def logout (b : Browser) (s : AuthState) : Browser × AuthState :=
  (clearToken b, { s with user := none })

/-- A `login` that starts and completes while the request of `checkAuth` is
pending: the login form is outside `RequireAuth` and usable during the check. -/
def loginDuringCheck (identifier password : String) (loginReply checkReply : Outcome)
    (b : Browser) (s : AuthState) : Browser × AuthState :=
  let started := checkAuthStart b s
  let loggedIn := login identifier password loginReply started.2.1 started.2.2
  if started.1 then checkAuthSettle checkReply loggedIn.2.1 loggedIn.2.2
  else loggedIn.2

/-! ## `RequireAuth` (src/App.js) -/

/-- The identifiers bound at the top level of `src/App.js`: the names its
`import` lines bring in (line 21 imports `{ AuthProvider }` only) and its two
function declarations. -/
def appBindings : List String :=
  [ "React", "useState", "useEffect", "Router", "Routes", "Route", "Navigate", "axios",
    "Login", "Signup", "Home", "Explore", "Profile", "Post", "Messages", "NotFound",
    "Layout", "AuthProvider", "App", "RequireAuth" ]

/-- The element `RequireAuth` returns, when it returns. -/
inductive Gate (α : Type) where
  | loadingScreen
  | navigate (target : String) (replace : Bool)
  | children (c : α)
  deriving DecidableEq, Repr

/-- The outcome of calling a component: the element it returns, or the
`ReferenceError` raised when it reads an identifier that is not bound. -/
inductive Call (α : Type) where
  | returns (element : α)
  | referenceError (identifier : String)
  deriving DecidableEq, Repr

/-- The component `RequireAuth({ children })`. Its first statement reads the
identifier `AuthContext` to pass it to `React.useContext`; `ctx` is the value
the enclosing `AuthProvider` supplies, which `useContext` gives when that
identifier is bound. -/
def RequireAuth {α : Type} (children : α) (ctx : AuthState) : Call (Gate α) :=
  if appBindings.contains "AuthContext" then
    if ctx.loading then .returns .loadingScreen
    else if ctx.user.isNone then .returns (.navigate "/login" true)
    else .returns (.children children)
  else .referenceError "AuthContext"

/-! ## `Post` (src/components/Post.js) -/

/-- The React state of the `Post` component. -/
structure PostState where
  likeCount : Int
  isLiked : Bool
  isSaved : Bool
  showAllComments : Bool
  comments : List Comment
  deriving DecidableEq, Repr

/-- The initial values given to `useState` for a post, the current user and
the `showComments` prop. -/
def PostState.initial (post : Post) (user : User) (showComments : Bool) : PostState :=
  { likeCount := (post.likes.length : Int)
    isLiked := post.likes.contains user.id
    isSaved := false
    showAllComments := showComments
    comments := post.comments.getD [] }

/-- The handler `handleLike`. -/
def handleLike (post : Post) (reply : Outcome) (b : Browser) (s : PostState) :
    Browser × PostState :=
  let action := if s.isLiked then "unlike" else "like"
  let (response, b1) := axiosPost ("/api/posts/" ++ post._id ++ "/" ++ action) [] reply b
  match response with
  | .resolved data =>
    if data.success then
      (b1, { s with
        isLiked := !s.isLiked
        likeCount := if s.isLiked then s.likeCount - 1 else s.likeCount + 1 })
    else (b1, s)
  | .rejected _ => (b1, s)

/-- The handler `handleSave`. -/
def handleSave (post : Post) (reply : Outcome) (b : Browser) (s : PostState) :
    Browser × PostState :=
  let action := if s.isSaved then "unsave" else "save"
  let (response, b1) := axiosPost ("/api/posts/" ++ post._id ++ "/" ++ action) [] reply b
  match response with
  | .resolved data =>
    if data.success then (b1, { s with isSaved := !s.isSaved })
    else (b1, s)
  | .rejected _ => (b1, s)

/-- The handler `handleAddComment`. -/
def handleAddComment (newComment : Comment) (s : PostState) : PostState :=
  { s with comments := s.comments ++ [newComment] }

/-! ## `Home` (src/pages/Home.js) -/

/-- The React state of the `Home` page. `posts` is `none` when `setPosts` was
given `undefined` (a successful body without a `posts` field). -/
structure HomeState where
  posts : Option (List Post)
  loading : Bool
  error : Option String
  deriving DecidableEq, Repr

/-- The initial values given to `useState`. -/
def HomeState.initial : HomeState :=
  { posts := some [], loading := true, error := none }

/-- The effect `fetchPosts` run on mount. -/
def fetchPosts (reply : Outcome) (b : Browser) (s : HomeState) : Browser × HomeState :=
  let (response, b1) := axiosGet "/api/posts/feed" reply b
  let s1 : HomeState :=
    match response with
    | .resolved data =>
      if data.success then { s with posts := data.posts }
      else { s with error := some (orDefault data.message "Failed to load posts") }
    | .rejected _ =>
      { s with error := some "Failed to load posts. Please try again later." }
  (b1, { s1 with loading := false })

/-- One `<Post key={post._id} post={post} />` element. -/
structure PostElement where
  key : String
  post : Post
  deriving DecidableEq, Repr

/-- The alternatives of the ternary inside the feed container. -/
inductive FeedBody where
  | emptyFeed
  | posts (elements : List PostElement)
  deriving DecidableEq, Repr

/-- The feed container: the optional error message and the feed body. -/
structure FeedContainer where
  errorMessage : Option String
  body : FeedBody
  deriving DecidableEq, Repr

/-- What `Home` returns. -/
inductive HomeView where
  | loadingSpinner
  | homePage (feed : FeedContainer)
  deriving DecidableEq, Repr

/-- The render of `Home`. `none` is the `TypeError` raised by `posts.length`
when `posts` is `undefined`. -/
def Home (s : HomeState) : Option HomeView :=
  if s.loading then some .loadingSpinner
  else
    match s.posts with
    | none => none
    | some posts =>
      some (.homePage
        { errorMessage := if truthy s.error then s.error else none
          body :=
            if posts.length == 0 && !truthy s.error then .emptyFeed
            else .posts (posts.map fun post => { key := post._id, post := post }) })

/-! ## Sequences of completed operations -/

/-- Consecutive `handleLike` invocations, one per outcome, each one completed
(and the component re-rendered) before the next starts. -/
def handleLikes (post : Post) : List Outcome → Browser → PostState → Browser × PostState
  | [], b, s => (b, s)
  | reply :: rest, b, s =>
    handleLikes post rest (handleLike post reply b s).1 (handleLike post reply b s).2

end Web

/-! # iOS client -/

namespace IOS

/-- A Swift `Character`: one extended grapheme cluster, given by its Unicode
scalars in canonical form. -/
structure Character where
  scalars : List Char
  deriving DecidableEq, Repr

/-- A Swift `String`: its sequence of `Character`s, so that `count` is the
length of the list. -/
abbrev SwiftString := List Character

/-- A string literal whose characters are single scalars. -/
def lit (s : String) : SwiftString := s.toList.map fun c => { scalars := [c] }

/-- The Swift `struct User`, with its default property values. -/
structure User where
  id : SwiftString
  username : SwiftString
  fullName : SwiftString
  profilePicture : SwiftString
  bio : SwiftString
  isPrivate : Bool
  followerCount : Int
  followingCount : Int
  postCount : Int
  deriving DecidableEq, Repr

/-- The memberwise initialiser `User(id:username:fullName:)`. -/
def User.init (id username fullName : SwiftString) : User :=
  { id := id, username := username, fullName := fullName
    profilePicture := lit "default_profile", bio := lit "", isPrivate := false
    followerCount := 0, followingCount := 0, postCount := 0 }

/-- The published properties of `AuthViewModel`. -/
structure AuthViewModel where
  isAuthenticated : Bool
  user : Option User
  isLoading : Bool
  error : Option SwiftString
  deriving DecidableEq, Repr

/-- The property initialisers of `AuthViewModel`. -/
def AuthViewModel.initial : AuthViewModel :=
  { isAuthenticated := false, user := none, isLoading := false, error := none }

/-- A completed `signup(email:username:fullName:password:)`: the synchronous
part followed by the delayed closure. -/
def signup (email username fullName password : SwiftString) (vm : AuthViewModel) :
    AuthViewModel :=
  let vm1 := { vm with isLoading := true, error := none }
  let vm2 := { vm1 with isLoading := false }
  if email.contains { scalars := ['@'] } && decide (username.length ≥ 3)
      && decide (password.length ≥ 6) then
    { vm2 with isAuthenticated := true, user := some (User.init (lit "1") username fullName) }
  else
    { vm2 with error := some (lit "Invalid input. Please check your information.") }

/-- The method `logout()`. -/
def logout (vm : AuthViewModel) : AuthViewModel :=
  { vm with isAuthenticated := false, user := none }

/-- The lowercasing of a string of ASCII characters, scalar by scalar; it
stands in for `lowercased()` in the examples. -/
def asciiLowercased (s : SwiftString) : SwiftString :=
  s.map fun c => { scalars := c.scalars.map Char.toLower }

/-- A completed `login(identifier:password:)`: the synchronous part followed by
the delayed closure. `lowercased` is the library method `String.lowercased()`,
taken as a parameter. -/
def login (lowercased : SwiftString → SwiftString) (identifier password : SwiftString)
    (vm : AuthViewModel) : AuthViewModel :=
  let vm1 := { vm with isLoading := true, error := none }
  let vm2 := { vm1 with isLoading := false }
  if lowercased identifier == lit "test" && password == lit "password" then
    { vm2 with
      isAuthenticated := true
      user := some (User.init (lit "1") (lit "test_user") (lit "Test User")) }
  else
    { vm2 with error := some (lit "Invalid credentials") }

/-- One completed call on `AuthViewModel`, with its arguments. -/
inductive AuthCall where
  | login (identifier password : SwiftString)
  | signup (email username fullName password : SwiftString)
  | logout
  deriving DecidableEq, Repr

/-- The effect of one completed call on the view model. -/
def AuthCall.run (lowercased : SwiftString → SwiftString) (call : AuthCall)
    (vm : AuthViewModel) : AuthViewModel :=
  match call with
  | .login identifier password => IOS.login lowercased identifier password vm
  | .signup email username fullName password => IOS.signup email username fullName password vm
  | .logout => IOS.logout vm

/-- A finite sequence of completed calls, run in order. -/
def runCalls (lowercased : SwiftString → SwiftString) (calls : List AuthCall)
    (vm : AuthViewModel) : AuthViewModel :=
  calls.foldl (fun acc call => call.run lowercased acc) vm

end IOS

/-! # API server (server.js) -/

namespace Backend

/-- The middleware functions and routers named in `server.js`. -/
inductive Handler where
  | cors
  | jsonParser
  | urlencodedParser
  | authRoutes
  | verifyToken
  | postRoutes
  | userRoutes
  | commentRoutes
  | uploadRoutes
  | messageRoutes
  | rootEndpoint
  deriving DecidableEq, Repr

/-- How a layer was registered: `app.use` or `app.get`. -/
inductive Verb where
  | use
  | get
  deriving DecidableEq, Repr

/-- One registration: the verb, the path as its segments (`/api/posts` is
`["api", "posts"]`, `/` is `[]`) and the handlers in argument order. -/
structure Mount where
  verb : Verb
  path : List String
  handlers : List Handler
  deriving DecidableEq, Repr

/-- The registrations under `// Middleware`. -/
def middleware : List Mount :=
  [ { verb := .use, path := [], handlers := [.cors] },
    { verb := .use, path := [], handlers := [.jsonParser] },
    { verb := .use, path := [], handlers := [.urlencodedParser] } ]

/-- The registrations under `// Routes` and `// Root endpoint`, in source order. -/
def routes : List Mount :=
  [ { verb := .use, path := ["api", "auth"], handlers := [.authRoutes] },
    { verb := .use, path := ["api", "posts"], handlers := [.verifyToken, .postRoutes] },
    { verb := .use, path := ["api", "users"], handlers := [.verifyToken, .userRoutes] },
    { verb := .use, path := ["api", "comments"], handlers := [.verifyToken, .commentRoutes] },
    { verb := .use, path := ["api", "upload"], handlers := [.verifyToken, .uploadRoutes] },
    { verb := .use, path := ["api", "messages"], handlers := [.verifyToken, .messageRoutes] },
    { verb := .get, path := [], handlers := [.rootEndpoint] } ]

/-- The five protected prefixes, each with the router mounted on it. -/
def protectedRouters : List (List String × Handler) :=
  [ (["api", "posts"], .postRoutes),
    (["api", "users"], .userRoutes),
    (["api", "comments"], .commentRoutes),
    (["api", "upload"], .uploadRoutes),
    (["api", "messages"], .messageRoutes) ]

/-- An incoming request: method and path segments. -/
structure Request where
  method : String
  path : List String
  deriving DecidableEq, Repr

/-- The characters of a segment with `A`-`Z` lowered. -/
def lower (s : String) : List Char := s.toList.map Char.toLower

/-- Segment comparison; Express routing is case-insensitive by default. -/
def sameSegment (a b : String) : Bool := lower a == lower b

/-- Whether `path` begins with the segments of `pre`. -/
def startsWith : List String → List String → Bool
  | [], _ => true
  | _ :: _, [] => false
  | a :: pre, b :: path => sameSegment a b && startsWith pre path

/-- Whether a registration applies to a request: `app.use` matches every method
on the path prefix, `app.get` matches `GET` and `HEAD` on the whole path. -/
def Mount.applies (m : Mount) (req : Request) : Bool :=
  match m.verb with
  | .use => startsWith m.path req.path
  | .get =>
    (req.method == "GET" || req.method == "HEAD") && startsWith m.path req.path
      && m.path.length == req.path.length

/-- The handlers Express lines up for a request, in registration order. -/
def stack (req : Request) : List Handler :=
  ((middleware ++ routes).filter fun m => m.applies req).flatMap fun m => m.handlers

/-- Running a line of handlers: each one runs, and the next one runs only if
it calls `next()`. The result is the list of handlers that ran. -/
def run (callsNext : Handler → Bool) : List Handler → List Handler
  | [] => []
  | h :: hs => h :: (if callsNext h then run callsNext hs else [])

/-- The handlers that run for a request, given which handlers call `next()` on it. -/
def dispatch (callsNext : Handler → Request → Bool) (req : Request) : List Handler :=
  run (fun h => callsNext h req) (stack req)

end Backend

/-! # Document schemas (models/Post.js and the database schema file)

The schema literals are embedded as data. What a schema accepts is decided by
the Mongoose validation rules, embedded in `Mongoose` for the options these
schemas use: `type`, `required`, `maxlength`, `enum`, `default` and arrays of
typed elements. -/

namespace Mongoose

/-- The schema types used by the schemas. -/
inductive SchemaType where
  | string
  | objectId
  | boolean
  | date
  deriving DecidableEq, Repr

/-- A stored scalar; dates are milliseconds since the epoch. -/
inductive Scalar where
  | null
  | string (s : String)
  | objectId (id : String)
  | boolean (b : Bool)
  | date (ms : Int)
  deriving DecidableEq, Repr

/-- The value of a path in a document. -/
inductive Value where
  | undefined
  | scalar (v : Scalar)
  | array (items : List Scalar)
  deriving DecidableEq, Repr

/-- A `default:` option: a constant or the function `Date.now`. -/
inductive Default where
  | value (v : Scalar)
  | dateNow
  deriving DecidableEq, Repr

/-- The options of one schema path, `{ type: ..., ... }`. -/
structure Options where
  type : SchemaType
  ref : Option String
  required : Bool
  maxlength : Option Nat
  enumValues : Option (List String)
  default : Option Default
  deriving DecidableEq, Repr

/-- The options `{ type: t }`. -/
def Options.ofType (t : SchemaType) : Options :=
  { type := t, ref := none, required := false, maxlength := none, enumValues := none,
    default := none }

/-- A schema path: `name: { ... }` or `name: [{ ... }]`. -/
inductive Path where
  | single (options : Options)
  | arrayOf (element : Options)
  deriving DecidableEq, Repr

/-- A schema: its paths in source order and the `timestamps` option. -/
structure Schema where
  paths : List (String × Path)
  timestamps : Bool
  deriving DecidableEq, Repr

/-- A document: the values of its paths, latest first, as Mongoose holds them
once it has cast what it was given to the types of the paths. A value whose
type still differs from the type of its path is one the cast rejected. -/
abbrev Document := List (String × Value)

/-- The value of a path, `undefined` when the document has none. -/
def Document.get (doc : Document) (name : String) : Value :=
  (doc.lookup name).getD .undefined

/-- The document after `doc[name] = value`. -/
def Document.set (doc : Document) (name : String) (value : Value) : Document :=
  (name, value) :: doc

/-- The reasons validation reports; `cast` is the error of a value the cast
rejected. -/
inductive ErrorKind where
  | required
  | cast
  | maxlength
  | enum
  deriving DecidableEq, Repr

/-- One validation error: the path, the array index if any, the reason. -/
structure ValidationError where
  path : String
  index : Option Nat
  kind : ErrorKind
  deriving DecidableEq, Repr

/-- Whether a non-null scalar has the schema type of its path. -/
def Scalar.hasType : Scalar → SchemaType → Bool
  | .string _, .string => true
  | .objectId _, .objectId => true
  | .boolean _, .boolean => true
  | .date _, .date => true
  | _, _ => false

/-- The default a path gets when the document leaves it undefined:
the `default:` option of a single path, the empty array for an array path. -/
def Path.defaultValue (now : Int) : Path → Value
  | .single options =>
    match options.default with
    | some (.value v) => .scalar v
    | some .dateNow => .scalar (.date now)
    | none => .undefined
  | .arrayOf _ => .array []

/-- Applying the defaults of the paths to the fields given to `new Model(...)`. -/
def applyDefaults (now : Int) : List (String × Path) → Document → Document
  | [], doc => doc
  | (name, path) :: rest, doc =>
    let doc1 :=
      match doc.get name, path.defaultValue now with
      | .undefined, .undefined => doc
      | .undefined, v => doc.set name v
      | _, _ => doc
    applyDefaults now rest doc1

/-- The document `new Model(fields)` built at time `now`: the given fields with
the defaults of the paths applied. (The `timestamps` option stamps `createdAt`
and `updatedAt` later, when the document is saved.) -/
def create (schema : Schema) (now : Int) (fields : Document) : Document :=
  applyDefaults now schema.paths fields

/-- The length of a string as JavaScript counts it, in UTF-16 code units. -/
def utf16Length (s : String) : Nat :=
  (s.toList.map fun c => if c.val < 0x10000 then 1 else 2).sum

/-- The validators of one scalar against the options of its path or element. -/
def checkScalar (name : String) (index : Option Nat) (options : Options) :
    Scalar → List ValidationError
  | .null =>
    if options.required then [{ path := name, index := index, kind := .required }] else []
  | .string s =>
    if options.type != .string then [{ path := name, index := index, kind := .cast }]
    else
      (if options.required && s == "" then
          [{ path := name, index := index, kind := .required }] else [])
      ++ (match options.maxlength with
          | some n =>
            if utf16Length s > n then
              [{ path := name, index := index, kind := .maxlength }] else []
          | none => [])
      ++ (match options.enumValues with
          | some values =>
            if values.contains s then [] else [{ path := name, index := index, kind := .enum }]
          | none => [])
  | v =>
    if v.hasType options.type then [] else [{ path := name, index := index, kind := .cast }]

/-- The validators of the elements of an array, each under its index. -/
def checkElements (name : String) (element : Options) :
    Nat → List Scalar → List ValidationError
  | _, [] => []
  | i, v :: rest => checkScalar name (some i) element v ++ checkElements name element (i + 1) rest

/-- The validation of one path of a document. -/
def validatePath (name : String) (path : Path) (value : Value) : List ValidationError :=
  match path, value with
  | .single options, .undefined =>
    if options.required then [{ path := name, index := none, kind := .required }] else []
  | .single options, .scalar v => checkScalar name none options v
  | .single _, .array _ => [{ path := name, index := none, kind := .cast }]
  | .arrayOf _, .undefined => []
  | .arrayOf element, .scalar v => checkElements name element 0 [v]
  | .arrayOf element, .array items => checkElements name element 0 items

/-- The errors `validate()` reports for a document; it is accepted when there are none. -/
def validate (schema : Schema) (doc : Document) : List ValidationError :=
  schema.paths.flatMap fun p => validatePath p.1 p.2 (doc.get p.1)

end Mongoose

namespace Models

open Mongoose

/-- The schema of `models/Post.js`. -/
def PostSchema : Schema :=
  { paths :=
      [ ("user", .single { Options.ofType .objectId with ref := some "User", required := true }),
        ("caption", .single { Options.ofType .string with maxlength := some 2200 }),
        ("images", .arrayOf { Options.ofType .string with required := true }),
        ("filter", .single
          { Options.ofType .string with default := some (.value (.string "normal")) }),
        ("location", .single (Options.ofType .string)),
        ("tags", .arrayOf (Options.ofType .string)),
        ("likes", .arrayOf { Options.ofType .objectId with ref := some "User" }),
        ("comments", .arrayOf { Options.ofType .objectId with ref := some "Comment" }),
        ("isArchived", .single
          { Options.ofType .boolean with default := some (.value (.boolean false)) }) ]
    timestamps := true }

/-- The virtual `likeCount`: `this.likes.length` (`none` when `likes` is not an array). -/
def likeCount (doc : Document) : Option Nat :=
  match doc.get "likes" with
  | .array likes => some likes.length
  | _ => none

/-- The virtual `commentCount`: `this.comments.length`. -/
def commentCount (doc : Document) : Option Nat :=
  match doc.get "comments" with
  | .array comments => some comments.length
  | _ => none

end Models

namespace Database

open Mongoose

/-- The `PostSchema` literal of the database schema file. -/
def PostSchema : Schema :=
  { paths :=
      [ ("user", .single { Options.ofType .objectId with ref := some "User", required := true }),
        ("caption", .single { Options.ofType .string with maxlength := some 2200 }),
        ("images", .arrayOf { Options.ofType .string with required := true }),
        ("filter", .single
          { Options.ofType .string with default := some (.value (.string "normal")) }),
        ("location", .single (Options.ofType .string)),
        ("tags", .arrayOf (Options.ofType .string)),
        ("mentionedUsers", .arrayOf { Options.ofType .objectId with ref := some "User" }),
        ("likes", .arrayOf { Options.ofType .objectId with ref := some "User" }),
        ("comments", .arrayOf { Options.ofType .objectId with ref := some "Comment" }),
        ("isArchived", .single
          { Options.ofType .boolean with default := some (.value (.boolean false)) }),
        ("isCommentsDisabled", .single
          { Options.ofType .boolean with default := some (.value (.boolean false)) }),
        ("isSensitive", .single
          { Options.ofType .boolean with default := some (.value (.boolean false)) }),
        ("createdAt", .single { Options.ofType .date with default := some .dateNow }),
        ("updatedAt", .single { Options.ofType .date with default := some .dateNow }) ]
    timestamps := false }

/-- The `StorySchema` literal of the database schema file. -/
def StorySchema : Schema :=
  { paths :=
      [ ("user", .single { Options.ofType .objectId with ref := some "User", required := true }),
        ("media", .single { Options.ofType .string with required := true }),
        ("mediaType", .single
          { Options.ofType .string with
            enumValues := some ["image", "video"]
            default := some (.value (.string "image")) }),
        ("caption", .single (Options.ofType .string)),
        ("location", .single (Options.ofType .string)),
        ("mentionedUsers", .arrayOf { Options.ofType .objectId with ref := some "User" }),
        ("viewers", .arrayOf { Options.ofType .objectId with ref := some "User" }),
        ("isHighlighted", .single
          { Options.ofType .boolean with default := some (.value (.boolean false)) }),
        ("highlightName", .single (Options.ofType .string)),
        ("expiresAt", .single { Options.ofType .date with required := true }),
        ("createdAt", .single { Options.ofType .date with default := some .dateNow }) ]
    timestamps := false }

/-- Twenty-four hours in milliseconds. -/
def dayMs : Int := 24 * 60 * 60 * 1000

end Database

end GraphicGram

/-! # Theorems -/

namespace GraphicGram

namespace Web

/-! ## Helper lemmas -/

theorem orDefault_spec (v : Option String) (d : String) :
    orDefault v d =
      match v with
      | some m => if m = "" then d else m
      | none => d := by
  cases v with
  | none => rfl
  | some m => by_cases h : m = "" <;> simp [orDefault, truthy, h]

theorem orDefault_ne_empty (v : Option String) (d : String) (hd : d ≠ "") :
    orDefault v d ≠ "" := by
  rw [orDefault_spec]
  cases v with
  | none => exact hd
  | some m => by_cases h : m = "" <;> simp [h, hd]

theorem getItem_setItem (st : Store) (key value : String) :
    (st.setItem key value).getItem key = some value := by
  simp [Store.getItem, Store.setItem]

theorem getItem_setItem_of_ne (st : Store) (key value k : String) (h : k ≠ key) :
    (st.setItem key value).getItem k = st.getItem k := by
  simp [Store.getItem, Store.setItem, h]

theorem getItem_removeItem (st : Store) (key : String) :
    (st.removeItem key).getItem key = none := by
  simp [Store.getItem, Store.removeItem]

theorem getItem_removeItem_of_ne (st : Store) (key k : String) (h : k ≠ key) :
    (st.removeItem key).getItem k = st.getItem k := by
  simp [Store.getItem, Store.removeItem, h]

/-! ## `AuthProvider` -/

/-- C1. `login`: for every identifier and password and every response with
`success = true` carrying a token `t` and a user `u`, `login` returns `true`,
the context's `user` is `u` afterwards and `error` is `null`. -/
theorem login_success_sets_session (identifier password : String) (r : ResponseData)
    (t : String) (u : User) (b : Browser) (s : AuthState)
    (hs : r.success = true) (_ht : r.token = some t) (hu : r.user = some u) :
    (login identifier password (.resolved r) b s).1 = true
      ∧ (login identifier password (.resolved r) b s).2.2.user = some u
      ∧ (login identifier password (.resolved r) b s).2.2.error = none := by
  simp [login, axiosPost, hs, hu]

theorem login_success_sets_session_witness :
    (true = true ∧ some "tok" = some "tok"
        ∧ some ({ id := "7", username := "ann" } : User) = some { id := "7", username := "ann" })
      ∧ (login "ann" "pw"
          (.resolved { success := true, message := none, token := some "tok",
                       user := some { id := "7", username := "ann" }, posts := none })
          (Browser.fresh Store.empty) AuthState.initial).1 = true
      ∧ (login "ann" "pw"
          (.resolved { success := true, message := none, token := some "tok",
                       user := some { id := "7", username := "ann" }, posts := none })
          (Browser.fresh Store.empty) AuthState.initial).2.2.user
          = some { id := "7", username := "ann" }
      ∧ (login "ann" "pw"
          (.resolved { success := true, message := none, token := some "tok",
                       user := some { id := "7", username := "ann" }, posts := none })
          (Browser.fresh Store.empty) AuthState.initial).2.2.error = none :=
  ⟨⟨rfl, rfl, rfl⟩,
    login_success_sets_session "ann" "pw" _ "tok" { id := "7", username := "ann" }
      (Browser.fresh Store.empty) AuthState.initial rfl rfl rfl⟩

/-- C2. `login` and `signup`: for every successful response carrying a token
`t`, afterwards `localStorage` holds `t` under the key `token` (and no other
key changed), the default `Authorization` header is `"Bearer " ++ t`, and every
request built from the defaults carries exactly that header. -/
theorem success_persists_token (identifier password : String)
    (userData : List (String × String)) (r : ResponseData) (t : String)
    (b : Browser) (s : AuthState) (hs : r.success = true) (ht : r.token = some t) :
    ((login identifier password (.resolved r) b s).2.1.localStorage.getItem "token" = some t
      ∧ (∀ k, k ≠ "token" →
          (login identifier password (.resolved r) b s).2.1.localStorage.getItem k
            = b.localStorage.getItem k)
      ∧ (login identifier password (.resolved r) b s).2.1.headers.getItem "Authorization"
          = some ("Bearer " ++ t)
      ∧ (∀ method url data,
          ((login identifier password (.resolved r) b s).2.1.request method url data).authorization
            = some ("Bearer " ++ t)))
    ∧ ((signup userData (.resolved r) b s).2.1.localStorage.getItem "token" = some t
      ∧ (∀ k, k ≠ "token" →
          (signup userData (.resolved r) b s).2.1.localStorage.getItem k
            = b.localStorage.getItem k)
      ∧ (signup userData (.resolved r) b s).2.1.headers.getItem "Authorization"
          = some ("Bearer " ++ t)
      ∧ (∀ method url data,
          ((signup userData (.resolved r) b s).2.1.request method url data).authorization
            = some ("Bearer " ++ t))) := by
  have hl : (login identifier password (.resolved r) b s).2.1
      = saveToken (some t) (axiosPost "/api/auth/login"
          [("identifier", identifier), ("password", password)] (.resolved r) b).2 := by
    simp [login, axiosPost, hs, ht]
  have hg : (signup userData (.resolved r) b s).2.1
      = saveToken (some t) (axiosPost "/api/auth/register" userData (.resolved r) b).2 := by
    simp [signup, axiosPost, hs, ht]
  rw [hl, hg]
  refine ⟨⟨?_, ?_, ?_, ?_⟩, ?_, ?_, ?_, ?_⟩
  all_goals first
    | (intro k hk
       simp [saveToken, axiosPost, toStr, Store.getItem, Store.setItem, hk])
    | (intro method url data
       simp [saveToken, axiosPost, toStr, Browser.request, Store.getItem, Store.setItem])
    | simp [saveToken, axiosPost, toStr, Store.getItem, Store.setItem]

theorem success_persists_token_witness :
    ((⟨true, none, some "tok", none, none⟩ : ResponseData).success = true
      ∧ (⟨true, none, some "tok", none, none⟩ : ResponseData).token = some "tok")
    ∧ (login "ann" "pw" (.resolved ⟨true, none, some "tok", none, none⟩)
        (Browser.fresh Store.empty) AuthState.initial).2.1.localStorage.getItem "token"
        = some "tok"
    ∧ (login "ann" "pw" (.resolved ⟨true, none, some "tok", none, none⟩)
        (Browser.fresh Store.empty) AuthState.initial).2.1.headers.getItem "Authorization"
        = some ("Bearer " ++ "tok")
    ∧ (signup [("username", "ann")] (.resolved ⟨true, none, some "tok", none, none⟩)
        (Browser.fresh Store.empty) AuthState.initial).2.1.localStorage.getItem "token"
        = some "tok"
    ∧ (signup [("username", "ann")] (.resolved ⟨true, none, some "tok", none, none⟩)
        (Browser.fresh Store.empty) AuthState.initial).2.1.headers.getItem "Authorization"
        = some ("Bearer " ++ "tok") :=
  have h := success_persists_token "ann" "pw" [("username", "ann")]
    ⟨true, none, some "tok", none, none⟩ "tok" (Browser.fresh Store.empty)
    AuthState.initial rfl rfl
  ⟨⟨rfl, rfl⟩, h.1.1, h.1.2.2.1, h.2.1, h.2.2.2.1⟩

/-- C3. `login` from a state with no session: for every failed attempt (a
response with `success = false` and any message, missing and empty included, or
a thrown request with or without a response message) `login` returns `false`,
the session is still unset (`user` is `null`, no token stored, no header) and
`error` is a non-empty string. -/
theorem login_failure_keeps_session_unset (identifier password : String) (reply : Outcome)
    (b : Browser) (s : AuthState)
    (hu : s.user = none) (ht : b.localStorage.getItem "token" = none)
    (hh : b.headers.getItem "Authorization" = none)
    (hf : (∃ d, reply = .resolved d ∧ d.success = false) ∨ (∃ e, reply = .rejected e)) :
    (login identifier password reply b s).1 = false
      ∧ (login identifier password reply b s).2.2.user = none
      ∧ (login identifier password reply b s).2.1.localStorage.getItem "token" = none
      ∧ (login identifier password reply b s).2.1.headers.getItem "Authorization" = none
      ∧ ∃ e, (login identifier password reply b s).2.2.error = some e ∧ e ≠ "" := by
  rcases hf with ⟨d, rfl, hd⟩ | ⟨e, rfl⟩
  · refine ⟨?_, ?_, ?_, ?_, orDefault d.message "Login failed", ?_, ?_⟩
    · simp [login, axiosPost, hd]
    · simp [login, axiosPost, hd, hu]
    · simpa [login, axiosPost, hd] using ht
    · simpa [login, axiosPost, hd] using hh
    · simp [login, axiosPost, hd]
    · exact orDefault_ne_empty _ _ (by decide)
  · refine ⟨?_, ?_, ?_, ?_, orDefault e.message "An error occurred", ?_, ?_⟩
    · simp [login, axiosPost]
    · simp [login, axiosPost, hu]
    · simpa [login, axiosPost] using ht
    · simpa [login, axiosPost] using hh
    · simp [login, axiosPost]
    · exact orDefault_ne_empty _ _ (by decide)

theorem login_failure_keeps_session_unset_witness :
    (AuthState.initial.user = none
      ∧ (Browser.fresh Store.empty).localStorage.getItem "token" = none
      ∧ (Browser.fresh Store.empty).headers.getItem "Authorization" = none)
    ∧ (login "ann" "bad" (.resolved ⟨false, some "", none, none, none⟩)
        (Browser.fresh Store.empty) AuthState.initial).1 = false
    ∧ (login "ann" "bad" (.resolved ⟨false, some "", none, none, none⟩)
        (Browser.fresh Store.empty) AuthState.initial).2.2.user = none
    ∧ (login "ann" "bad" (.resolved ⟨false, some "", none, none, none⟩)
        (Browser.fresh Store.empty) AuthState.initial).2.1.localStorage.getItem "token" = none
    ∧ (login "ann" "bad" (.resolved ⟨false, some "", none, none, none⟩)
        (Browser.fresh Store.empty) AuthState.initial).2.1.headers.getItem "Authorization"
        = none
    ∧ ∃ e, (login "ann" "bad" (.resolved ⟨false, some "", none, none, none⟩)
        (Browser.fresh Store.empty) AuthState.initial).2.2.error = some e ∧ e ≠ "" :=
  ⟨⟨rfl, rfl, rfl⟩,
    login_failure_keeps_session_unset "ann" "bad" (.resolved ⟨false, some "", none, none, none⟩)
      (Browser.fresh Store.empty) AuthState.initial rfl rfl rfl
      (Or.inl ⟨_, rfl, rfl⟩)⟩

/-- The identifier `AuthContext` is not bound in `src/App.js`, so every call of
`RequireAuth` raises the `ReferenceError`. -/
theorem requireAuth_referenceError {α : Type} (children : α) (ctx : AuthState) :
    RequireAuth children ctx = .referenceError "AuthContext" := by
  unfold RequireAuth
  rw [if_neg (by decide)]

/-- C4, evaluated on the code. For every state, after `logout` the stored token
is absent, the `Authorization` header is absent, `user` is `null` and `loading`
is as it was; but `RequireAuth` on the resulting state does not return the
redirect to `/login` (nor the loading screen, nor its children): it raises a
`ReferenceError`, because `src/App.js` never imports `AuthContext`. -/
theorem logout_clears_session_gate_throws {α : Type} (children : α) (b : Browser)
    (s : AuthState) :
    (logout b s).1.localStorage.getItem "token" = none
      ∧ (logout b s).1.headers.getItem "Authorization" = none
      ∧ (logout b s).2.user = none
      ∧ (logout b s).2.loading = s.loading
      ∧ RequireAuth children (logout b s).2 = .referenceError "AuthContext"
      ∧ RequireAuth children (logout b s).2 ≠ .returns (.children children)
      ∧ RequireAuth children (logout b s).2 ≠ .returns (.navigate "/login" true) := by
  have hr := requireAuth_referenceError children (logout b s).2
  refine ⟨?_, ?_, rfl, rfl, hr, ?_, ?_⟩
  · simp [logout, clearToken, Store.getItem, Store.removeItem]
  · simp [logout, clearToken, Store.getItem, Store.removeItem]
  · rw [hr]
    exact fun h => Call.noConfusion h
  · rw [hr]
    exact fun h => Call.noConfusion h

/-- C8, evaluated on the code. Startup auth check with an invalid token: for
every stored token `t`, when `checkAuth` has sent its `/api/auth/me` request (it
does so exactly when the stored token is a non-empty string) and the response
has `success = false` or the request throws, then afterwards the stored token
is removed, the `Authorization` header is removed, `user` is `null` and
`loading` is `false`; but `RequireAuth` on that state does not return the
redirect to `/login`: it raises a `ReferenceError`, because `src/App.js` never
imports `AuthContext`. -/
theorem checkAuth_invalid_token_gate_throws {α : Type} (children : α) (t : String)
    (reply : Outcome) (b : Browser)
    (_ht : b.localStorage.getItem "token" = some t)
    (hreq : (checkAuth reply b AuthState.initial).1.sent
      = b.sent ++ [{ method := "GET", url := "/api/auth/me", data := [],
                     authorization := some ("Bearer " ++ t) }])
    (hf : (∃ d, reply = .resolved d ∧ d.success = false) ∨ (∃ e, reply = .rejected e)) :
    (checkAuth reply b AuthState.initial).1.localStorage.getItem "token" = none
      ∧ (checkAuth reply b AuthState.initial).1.headers.getItem "Authorization" = none
      ∧ (checkAuth reply b AuthState.initial).2.user = none
      ∧ (checkAuth reply b AuthState.initial).2.loading = false
      ∧ RequireAuth children (checkAuth reply b AuthState.initial).2
          = .referenceError "AuthContext"
      ∧ RequireAuth children (checkAuth reply b AuthState.initial).2
          ≠ .returns (.navigate "/login" true) := by
  have htr : truthy (b.localStorage.getItem "token") = true := by
    by_contra hc
    simp [checkAuth, hc] at hreq
  have htr2 : truthy (b.localStorage "token") = true := htr
  have hr := requireAuth_referenceError children (checkAuth reply b AuthState.initial).2
  refine ⟨?_, ?_, ?_, ?_, hr, ?_⟩
  · rcases hf with ⟨d, rfl, hd⟩ | ⟨e, rfl⟩ <;>
      simp [checkAuth, htr2, axiosGet, clearToken, Store.getItem, Store.removeItem, *]
  · rcases hf with ⟨d, rfl, hd⟩ | ⟨e, rfl⟩ <;>
      simp [checkAuth, htr2, axiosGet, clearToken, Store.getItem, Store.removeItem, *]
  · rcases hf with ⟨d, rfl, hd⟩ | ⟨e, rfl⟩ <;>
      simp [checkAuth, htr2, axiosGet, Store.getItem, AuthState.initial, *]
  · rcases hf with ⟨d, rfl, hd⟩ | ⟨e, rfl⟩ <;>
      simp [checkAuth, htr2, axiosGet, Store.getItem, *]
  · rw [hr]
    exact fun h => Call.noConfusion h

theorem checkAuth_invalid_token_gate_throws_witness :
    ((Browser.fresh (Store.empty.setItem "token" "expired")).localStorage.getItem "token"
        = some "expired"
      ∧ (checkAuth (.rejected ⟨none⟩) (Browser.fresh (Store.empty.setItem "token" "expired"))
          AuthState.initial).1.sent
        = (Browser.fresh (Store.empty.setItem "token" "expired")).sent
            ++ [{ method := "GET", url := "/api/auth/me", data := [],
                  authorization := some ("Bearer " ++ "expired") }])
    ∧ (checkAuth (.rejected ⟨none⟩) (Browser.fresh (Store.empty.setItem "token" "expired"))
        AuthState.initial).1.localStorage.getItem "token" = none
    ∧ (checkAuth (.rejected ⟨none⟩) (Browser.fresh (Store.empty.setItem "token" "expired"))
        AuthState.initial).1.headers.getItem "Authorization" = none
    ∧ (checkAuth (.rejected ⟨none⟩) (Browser.fresh (Store.empty.setItem "token" "expired"))
        AuthState.initial).2.user = none
    ∧ (checkAuth (.rejected ⟨none⟩) (Browser.fresh (Store.empty.setItem "token" "expired"))
        AuthState.initial).2.loading = false
    ∧ RequireAuth "Home" (checkAuth (.rejected ⟨none⟩)
        (Browser.fresh (Store.empty.setItem "token" "expired")) AuthState.initial).2
        = .referenceError "AuthContext"
    ∧ RequireAuth "Home" (checkAuth (.rejected ⟨none⟩)
        (Browser.fresh (Store.empty.setItem "token" "expired")) AuthState.initial).2
        ≠ .returns (.navigate "/login" true) :=
  ⟨⟨rfl, by decide⟩,
    checkAuth_invalid_token_gate_throws "Home" "expired" (.rejected ⟨none⟩)
      (Browser.fresh (Store.empty.setItem "token" "expired")) rfl (by decide)
      (Or.inr ⟨_, rfl⟩)⟩

/-- C10. `signup`: for every `userData` and every outcome of the request,
`signup` returns `true` exactly when the response has `success = true`; then
`user` is the response's user, `error` is `null` and the session is set (the
token is stored and the header is `"Bearer "` followed by it). On a failed
response it returns `false` and `error` is the server message or, when that is
missing or empty, `Signup failed`; on a thrown request it returns `false` and
`error` is the message of the error's response or, when that is missing or
empty, `An error occurred`. Both defaults are non-empty. -/
theorem signup_contract (userData : List (String × String)) (reply : Outcome)
    (b : Browser) (s : AuthState) :
    ((signup userData reply b s).1 = true ↔ ∃ d, reply = .resolved d ∧ d.success = true)
    ∧ (∀ d, reply = .resolved d → d.success = true →
        (signup userData reply b s).2.2.user = d.user
        ∧ (signup userData reply b s).2.2.error = none
        ∧ (signup userData reply b s).2.1.localStorage.getItem "token" = some (toStr d.token)
        ∧ (signup userData reply b s).2.1.headers.getItem "Authorization"
            = some ("Bearer " ++ toStr d.token))
    ∧ (∀ d, reply = .resolved d → d.success = false →
        (signup userData reply b s).1 = false
        ∧ (signup userData reply b s).2.2.error
            = some (match d.message with
                    | some m => if m = "" then "Signup failed" else m
                    | none => "Signup failed"))
    ∧ (∀ e, reply = .rejected e →
        (signup userData reply b s).1 = false
        ∧ (signup userData reply b s).2.2.error
            = some (match e.message with
                    | some m => if m = "" then "An error occurred" else m
                    | none => "An error occurred"))
    ∧ "Signup failed" ≠ "" ∧ "An error occurred" ≠ "" := by
  refine ⟨?_, ?_, ?_, ?_, by decide, by decide⟩
  · cases reply with
    | resolved d => cases hd : d.success <;> simp [signup, axiosPost, hd]
    | rejected e => simp [signup, axiosPost]
  · rintro d rfl hd
    simp [signup, axiosPost, hd, saveToken, Store.getItem, Store.setItem]
  · rintro d rfl hd
    simp [signup, axiosPost, hd, orDefault_spec]
  · rintro e rfl
    simp [signup, axiosPost, orDefault_spec]

theorem signup_contract_witness :
    (signup [("username", "ann")] (.resolved ⟨true, none, some "tok", some ⟨"7", "ann"⟩, none⟩)
        (Browser.fresh Store.empty) AuthState.initial).2.2.user = some ⟨"7", "ann"⟩
    ∧ (signup [("username", "ann")] (.resolved ⟨false, some "", none, none, none⟩)
        (Browser.fresh Store.empty) AuthState.initial).2.2.error = some "Signup failed"
    ∧ (signup [("username", "ann")] (.rejected ⟨some ⟨some ⟨false, some "taken", none, none, none⟩⟩⟩)
        (Browser.fresh Store.empty) AuthState.initial).2.2.error = some "taken" :=
  ⟨((signup_contract [("username", "ann")]
        (.resolved ⟨true, none, some "tok", some ⟨"7", "ann"⟩, none⟩)
        (Browser.fresh Store.empty) AuthState.initial).2.1 _ rfl rfl).1,
    ((signup_contract [("username", "ann")] (.resolved ⟨false, some "", none, none, none⟩)
        (Browser.fresh Store.empty) AuthState.initial).2.2.1 _ rfl rfl).2,
    ((signup_contract [("username", "ann")]
        (.rejected ⟨some ⟨some ⟨false, some "taken", none, none, none⟩⟩⟩)
        (Browser.fresh Store.empty) AuthState.initial).2.2.2.1 _ rfl).2⟩

/-! ## `Post` -/

/-- C5. Like toggle: for every post and every initial `(isLiked, likeCount)`,
two consecutive `handleLike` invocations whose responses both have
`success = true` leave `likeCount` and `isLiked` as they were. The first
invocation flips `isLiked` and moves the count by one, and the two requests go
to the two opposite endpoints, so a like followed by an unlike restores the
like count. -/
theorem handleLike_twice_restores (post : Post) (r1 r2 : ResponseData) (b : Browser)
    (s : PostState) (h1 : r1.success = true) (h2 : r2.success = true) :
    (handleLike post (.resolved r2) (handleLike post (.resolved r1) b s).1
        (handleLike post (.resolved r1) b s).2).2.likeCount = s.likeCount
    ∧ (handleLike post (.resolved r2) (handleLike post (.resolved r1) b s).1
        (handleLike post (.resolved r1) b s).2).2.isLiked = s.isLiked
    ∧ (handleLike post (.resolved r1) b s).2.isLiked = !s.isLiked
    ∧ (handleLike post (.resolved r1) b s).2.likeCount
        = (if s.isLiked then s.likeCount - 1 else s.likeCount + 1)
    ∧ (handleLike post (.resolved r2) (handleLike post (.resolved r1) b s).1
        (handleLike post (.resolved r1) b s).2).1.sent.map (fun q => q.url)
        = b.sent.map (fun q => q.url)
          ++ [ "/api/posts/" ++ post._id ++ "/" ++ (if s.isLiked then "unlike" else "like"),
               "/api/posts/" ++ post._id ++ "/" ++ (if s.isLiked then "like" else "unlike") ] := by
  cases hl : s.isLiked <;> simp [handleLike, axiosPost, h1, h2, hl, Browser.request]

theorem handleLike_twice_restores_witness :
    ((⟨true, none, none, none, none⟩ : ResponseData).success = true
      ∧ (⟨true, none, none, none, none⟩ : ResponseData).success = true)
    ∧ (handleLike ⟨"p1", ["7"], none⟩ (.resolved ⟨true, none, none, none, none⟩)
        (handleLike ⟨"p1", ["7"], none⟩ (.resolved ⟨true, none, none, none, none⟩)
          (Browser.fresh Store.empty) (PostState.initial ⟨"p1", ["7"], none⟩ ⟨"9", "bob"⟩ false)).1
        (handleLike ⟨"p1", ["7"], none⟩ (.resolved ⟨true, none, none, none, none⟩)
          (Browser.fresh Store.empty) (PostState.initial ⟨"p1", ["7"], none⟩ ⟨"9", "bob"⟩ false)).2
        ).2.likeCount
        = (PostState.initial ⟨"p1", ["7"], none⟩ ⟨"9", "bob"⟩ false).likeCount :=
  ⟨⟨rfl, rfl⟩,
    (handleLike_twice_restores ⟨"p1", ["7"], none⟩ ⟨true, none, none, none, none⟩
      ⟨true, none, none, none, none⟩ (Browser.fresh Store.empty)
      (PostState.initial ⟨"p1", ["7"], none⟩ ⟨"9", "bob"⟩ false) rfl rfl).1⟩

/-! ## `Home` -/

/-- C6. Feed retrieval with zero posts: when the feed response has
`success = true` and an empty `posts` list, the state after `fetchPosts` has
`posts = []`, `error = null` and `loading = false`, and `Home` renders the
empty-feed placeholder with no error message. -/
theorem fetchPosts_empty_feed (r : ResponseData) (b : Browser)
    (hs : r.success = true) (hp : r.posts = some []) :
    (fetchPosts (.resolved r) b HomeState.initial).2.posts = some []
      ∧ (fetchPosts (.resolved r) b HomeState.initial).2.error = none
      ∧ (fetchPosts (.resolved r) b HomeState.initial).2.loading = false
      ∧ Home (fetchPosts (.resolved r) b HomeState.initial).2
          = some (.homePage { errorMessage := none, body := .emptyFeed }) := by
  simp [fetchPosts, axiosGet, hs, hp, HomeState.initial, Home, truthy]

theorem fetchPosts_empty_feed_witness :
    ((⟨true, none, none, none, some []⟩ : ResponseData).success = true
      ∧ (⟨true, none, none, none, some []⟩ : ResponseData).posts = some [])
    ∧ (fetchPosts (.resolved ⟨true, none, none, none, some []⟩) (Browser.fresh Store.empty)
        HomeState.initial).2.posts = some []
    ∧ (fetchPosts (.resolved ⟨true, none, none, none, some []⟩) (Browser.fresh Store.empty)
        HomeState.initial).2.error = none
    ∧ (fetchPosts (.resolved ⟨true, none, none, none, some []⟩) (Browser.fresh Store.empty)
        HomeState.initial).2.loading = false
    ∧ Home (fetchPosts (.resolved ⟨true, none, none, none, some []⟩) (Browser.fresh Store.empty)
        HomeState.initial).2
        = some (.homePage { errorMessage := none, body := .emptyFeed }) :=
  ⟨⟨rfl, rfl⟩,
    fetchPosts_empty_feed ⟨true, none, none, none, some []⟩ (Browser.fresh Store.empty)
      rfl rfl⟩

/-- C12. Home feed is a pass-through: for every successful feed response with
posts list `P`, the `posts` state after `fetchPosts` is `P` itself, and `Home`
renders one `Post` element per element of `P`, in the same order, each keyed by
and carrying its post (for an empty `P` that is the placeholder, with no `Post`
element). -/
theorem fetchPosts_pass_through (r : ResponseData) (P : List Post) (b : Browser)
    (hs : r.success = true) (hp : r.posts = some P) :
    (fetchPosts (.resolved r) b HomeState.initial).2.posts = some P
      ∧ Home (fetchPosts (.resolved r) b HomeState.initial).2
          = some (.homePage
              { errorMessage := none
                body := if P = [] then .emptyFeed
                        else .posts (P.map fun post => { key := post._id, post := post }) })
      ∧ ((P.map fun post => ({ key := post._id, post := post } : PostElement)).map
            fun e => e.post) = P
      ∧ (P.map fun post => ({ key := post._id, post := post } : PostElement)).length
          = P.length := by
  refine ⟨?_, ?_, ?_, ?_⟩
  · simp [fetchPosts, axiosGet, hs, hp]
  · cases P with
    | nil => simp [fetchPosts, axiosGet, hs, hp, HomeState.initial, Home, truthy]
    | cons p ps => simp [fetchPosts, axiosGet, hs, hp, HomeState.initial, Home, truthy]
  · simp [Function.comp_def]
  · simp

theorem fetchPosts_pass_through_witness :
    ((⟨true, none, none, none,
          some [⟨"p2", [], none⟩, ⟨"p1", ["7"], none⟩]⟩ : ResponseData).success = true
      ∧ (⟨true, none, none, none,
          some [⟨"p2", [], none⟩, ⟨"p1", ["7"], none⟩]⟩ : ResponseData).posts
          = some [⟨"p2", [], none⟩, ⟨"p1", ["7"], none⟩])
    ∧ (fetchPosts (.resolved ⟨true, none, none, none,
          some [⟨"p2", [], none⟩, ⟨"p1", ["7"], none⟩]⟩)
        (Browser.fresh Store.empty) HomeState.initial).2.posts
        = some [⟨"p2", [], none⟩, ⟨"p1", ["7"], none⟩] :=
  ⟨⟨rfl, rfl⟩,
    (fetchPosts_pass_through ⟨true, none, none, none,
        some [⟨"p2", [], none⟩, ⟨"p1", ["7"], none⟩]⟩ [⟨"p2", [], none⟩, ⟨"p1", ["7"], none⟩]
      (Browser.fresh Store.empty) rfl rfl).1⟩

/-- C14. Home feed failure: for every failed feed retrieval (a response with
`success = false` and any message, missing and empty included, or a thrown
request) the state after `fetchPosts` has a non-empty error string, `posts`
still the empty list and `loading = false`, and `Home` shows that error message
and not the empty-feed placeholder. -/
theorem fetchPosts_failure_shows_error (reply : Outcome) (b : Browser)
    (hf : (∃ d, reply = .resolved d ∧ d.success = false) ∨ (∃ e, reply = .rejected e)) :
    ∃ msg, msg ≠ ""
      ∧ (fetchPosts reply b HomeState.initial).2.error = some msg
      ∧ (fetchPosts reply b HomeState.initial).2.posts = some []
      ∧ (fetchPosts reply b HomeState.initial).2.loading = false
      ∧ Home (fetchPosts reply b HomeState.initial).2
          = some (.homePage { errorMessage := some msg, body := .posts [] }) := by
  rcases hf with ⟨d, rfl, hd⟩ | ⟨e, rfl⟩
  · have hne := orDefault_ne_empty d.message "Failed to load posts" (by decide)
    refine ⟨orDefault d.message "Failed to load posts", hne, ?_, ?_, ?_, ?_⟩ <;>
      simp [fetchPosts, axiosGet, hd, HomeState.initial, Home, truthy, hne]
  · refine ⟨"Failed to load posts. Please try again later.", by decide, ?_, ?_, ?_, ?_⟩ <;>
      simp [fetchPosts, axiosGet, HomeState.initial, Home, truthy]

theorem fetchPosts_failure_shows_error_witness :
    ∃ msg, msg ≠ ""
      ∧ (fetchPosts (.resolved ⟨false, some "", none, none, none⟩) (Browser.fresh Store.empty)
          HomeState.initial).2.error = some msg
      ∧ (fetchPosts (.resolved ⟨false, some "", none, none, none⟩) (Browser.fresh Store.empty)
          HomeState.initial).2.posts = some []
      ∧ (fetchPosts (.resolved ⟨false, some "", none, none, none⟩) (Browser.fresh Store.empty)
          HomeState.initial).2.loading = false
      ∧ Home (fetchPosts (.resolved ⟨false, some "", none, none, none⟩)
          (Browser.fresh Store.empty) HomeState.initial).2
          = some (.homePage { errorMessage := some msg, body := .posts [] }) :=
  fetchPosts_failure_shows_error (.resolved ⟨false, some "", none, none, none⟩)
    (Browser.fresh Store.empty) (Or.inl ⟨_, rfl, rfl⟩)

/-! ## `RequireAuth` -/

/-- C16, evaluated on the code. For every `(user, loading)` pair `RequireAuth`
raises a `ReferenceError` on `AuthContext`, which `src/App.js` never imports,
instead of following the decision table; in particular with a user present and
`loading` false it does not return its children. -/
theorem requireAuth_never_returns {α : Type} (children : α) (ctx : AuthState) :
    RequireAuth children ctx = .referenceError "AuthContext"
      ∧ (∀ element : Gate α, RequireAuth children ctx ≠ .returns element)
      ∧ RequireAuth children { user := some ⟨"7", "ann"⟩, loading := false, error := none }
          ≠ .returns (.children children) := by
  refine ⟨requireAuth_referenceError children ctx, ?_, ?_⟩
  · intro element h
    rw [requireAuth_referenceError] at h
    exact Call.noConfusion h
  · intro h
    rw [requireAuth_referenceError] at h
    exact Call.noConfusion h

/-! ## `Post`: endpoints and the like count -/

theorem append_left_cancel (a b c : String) (h : a ++ b = a ++ c) : b = c := by
  have hd := congrArg String.data h
  simp only [String.data_append] at hd
  exact String.ext (List.append_cancel_left hd)

theorem action_url_injective (id x y : String)
    (h : "/api/posts/" ++ id ++ "/" ++ x = "/api/posts/" ++ id ++ "/" ++ y) : x = y := by
  rw [String.append_assoc, String.append_assoc, String.append_assoc, String.append_assoc] at h
  exact append_left_cancel _ _ _ (append_left_cancel _ _ _ (append_left_cancel _ _ _ h))

/-- C17. Endpoint selection: for every post id, state and outcome, `handleLike`
sends exactly one request, a `POST` to `/api/posts/<id>/unlike` exactly when
`isLiked` is true and to `/api/posts/<id>/like` otherwise; `handleSave` sends
exactly one request, a `POST` to `/api/posts/<id>/unsave` exactly when
`isSaved` is true and to `/api/posts/<id>/save` otherwise. -/
theorem like_save_endpoints (post : Post) (reply : Outcome) (b : Browser) (s : PostState) :
    (∃ q, (handleLike post reply b s).1.sent = b.sent ++ [q]
        ∧ q.method = "POST"
        ∧ q.url = "/api/posts/" ++ post._id ++ "/" ++ (if s.isLiked then "unlike" else "like")
        ∧ (q.url = "/api/posts/" ++ post._id ++ "/" ++ "unlike" ↔ s.isLiked = true)
        ∧ (q.url = "/api/posts/" ++ post._id ++ "/" ++ "like" ↔ s.isLiked = false))
    ∧ (∃ q, (handleSave post reply b s).1.sent = b.sent ++ [q]
        ∧ q.method = "POST"
        ∧ q.url = "/api/posts/" ++ post._id ++ "/" ++ (if s.isSaved then "unsave" else "save")
        ∧ (q.url = "/api/posts/" ++ post._id ++ "/" ++ "unsave" ↔ s.isSaved = true)
        ∧ (q.url = "/api/posts/" ++ post._id ++ "/" ++ "save" ↔ s.isSaved = false)) := by
  constructor
  · refine ⟨b.request "POST"
      ("/api/posts/" ++ post._id ++ "/" ++ (if s.isLiked then "unlike" else "like")) [],
      ?_, rfl, rfl, ?_, ?_⟩
    · cases reply with
      | resolved d => cases hd : d.success <;> simp [handleLike, axiosPost, hd]
      | rejected e => simp [handleLike, axiosPost]
    · cases hl : s.isLiked
      · simp only [Browser.request, Bool.false_eq_true, if_false, iff_false]
        exact fun h => absurd (action_url_injective _ _ _ h) (by decide)
      · simp [Browser.request]
    · cases hl : s.isLiked
      · simp [Browser.request]
      · simp only [Browser.request, if_true, Bool.true_eq_false, iff_false]
        exact fun h => absurd (action_url_injective _ _ _ h) (by decide)
  · refine ⟨b.request "POST"
      ("/api/posts/" ++ post._id ++ "/" ++ (if s.isSaved then "unsave" else "save")) [],
      ?_, rfl, rfl, ?_, ?_⟩
    · cases reply with
      | resolved d => cases hd : d.success <;> simp [handleSave, axiosPost, hd]
      | rejected e => simp [handleSave, axiosPost]
    · cases hl : s.isSaved
      · simp only [Browser.request, Bool.false_eq_true, if_false, iff_false]
        exact fun h => absurd (action_url_injective _ _ _ h) (by decide)
      · simp [Browser.request]
    · cases hl : s.isSaved
      · simp [Browser.request]
      · simp only [Browser.request, if_true, Bool.true_eq_false, iff_false]
        exact fun h => absurd (action_url_injective _ _ _ h) (by decide)

theorem like_save_endpoints_witness :
    ∃ q, (handleLike ⟨"p1", ["7"], none⟩ (.rejected ⟨none⟩) (Browser.fresh Store.empty)
          (PostState.initial ⟨"p1", ["7"], none⟩ ⟨"7", "ann"⟩ false)).1.sent = [] ++ [q]
      ∧ q.method = "POST"
      ∧ q.url = "/api/posts/" ++ "p1" ++ "/" ++ "unlike" :=
  have h := (like_save_endpoints ⟨"p1", ["7"], none⟩ (.rejected ⟨none⟩)
    (Browser.fresh Store.empty) (PostState.initial ⟨"p1", ["7"], none⟩ ⟨"7", "ann"⟩ false)).1
  h.elim fun q hq => ⟨q, hq.1, hq.2.1, hq.2.2.1⟩

/-- One completed `handleLike` keeps the like count minus the own like. -/
theorem handleLike_balance (post : Post) (reply : Outcome) (b : Browser) (s : PostState) :
    (handleLike post reply b s).2.likeCount - (if (handleLike post reply b s).2.isLiked then 1 else 0)
      = s.likeCount - (if s.isLiked then 1 else 0) := by
  cases reply with
  | resolved d =>
    cases hd : d.success <;> cases hl : s.isLiked <;> simp [handleLike, axiosPost, hd, hl]
  | rejected e => simp [handleLike, axiosPost]

theorem handleLikes_balance (post : Post) (replies : List Outcome) (b : Browser)
    (s : PostState) :
    (handleLikes post replies b s).2.likeCount
        - (if (handleLikes post replies b s).2.isLiked then 1 else 0)
      = s.likeCount - (if s.isLiked then 1 else 0) := by
  induction replies generalizing b s with
  | nil => rfl
  | cons reply rest ih =>
    simp only [handleLikes]
    rw [ih, handleLike_balance]

/-- C19. Like-count invariant: from the initial state of the component
(`likeCount` the length of `post.likes`, `isLiked` whether `post.likes`
contains the current user's id), after any finite sequence of completed
`handleLike` invocations with arbitrary outcomes, `isLiked` implies
`likeCount ≥ 1`, `likeCount` is not negative, and `likeCount` is the initial
count plus 1 if `isLiked` now and minus 1 if `isLiked` initially. -/
theorem likeCount_invariant (post : Post) (user : User) (showComments : Bool)
    (replies : List Outcome) (b : Browser) :
    ((handleLikes post replies b (PostState.initial post user showComments)).2.isLiked = true →
        1 ≤ (handleLikes post replies b (PostState.initial post user showComments)).2.likeCount)
    ∧ 0 ≤ (handleLikes post replies b (PostState.initial post user showComments)).2.likeCount
    ∧ (handleLikes post replies b (PostState.initial post user showComments)).2.likeCount
        = (post.likes.length : Int)
          + (if (handleLikes post replies b
                (PostState.initial post user showComments)).2.isLiked then 1 else 0)
          - (if post.likes.contains user.id then 1 else 0) := by
  have hb := handleLikes_balance post replies b (PostState.initial post user showComments)
  have hpos : post.likes.contains user.id = true → 1 ≤ (post.likes.length : Int) := by
    intro hc
    have hm : user.id ∈ post.likes := by simpa using hc
    have := List.length_pos_of_mem hm
    omega
  generalize (handleLikes post replies b (PostState.initial post user showComments)).2 = fin
    at hb ⊢
  simp only [PostState.initial] at hb
  obtain ⟨count, liked, _, _, _⟩ := fin
  cases liked <;> cases hc : post.likes.contains user.id <;>
    simp only [hc, if_true, if_false, Bool.false_eq_true, forall_const, true_implies,
      false_implies, IsEmpty.forall_iff, true_and] at hb hpos ⊢ <;>
    omega

theorem likeCount_invariant_witness :
    (handleLikes ⟨"p1", ["7"], none⟩
        [.resolved ⟨true, none, none, none, none⟩, .rejected ⟨none⟩,
         .resolved ⟨false, none, none, none, none⟩]
        (Browser.fresh Store.empty) (PostState.initial ⟨"p1", ["7"], none⟩ ⟨"7", "ann"⟩ false)
      ).2.likeCount = 0
    ∧ 0 ≤ (handleLikes ⟨"p1", ["7"], none⟩
        [.resolved ⟨true, none, none, none, none⟩, .rejected ⟨none⟩,
         .resolved ⟨false, none, none, none, none⟩]
        (Browser.fresh Store.empty) (PostState.initial ⟨"p1", ["7"], none⟩ ⟨"7", "ann"⟩ false)
      ).2.likeCount :=
  ⟨by decide,
    (likeCount_invariant ⟨"p1", ["7"], none⟩ ⟨"7", "ann"⟩ false
      [.resolved ⟨true, none, none, none, none⟩, .rejected ⟨none⟩,
       .resolved ⟨false, none, none, none, none⟩] (Browser.fresh Store.empty)).2.1⟩

/-! ## `AuthProvider`: the startup check overlapped by a login -/

/-- The two parts of `checkAuth`, run back to back, are `checkAuth`. -/
theorem checkAuth_eq_start_then_settle (reply : Outcome) (b : Browser) (s : AuthState) :
    checkAuth reply b s
      = if (checkAuthStart b s).1 then
          checkAuthSettle reply (checkAuthStart b s).2.1 (checkAuthStart b s).2.2
        else (checkAuthStart b s).2 := by
  by_cases ht : truthy (b.localStorage "token") = true
  · cases reply with
    | resolved d =>
      cases hd : d.success <;>
        simp [checkAuth, checkAuthStart, checkAuthSettle, axiosGet, Store.getItem, ht, hd,
          clearToken]
    | rejected e =>
      simp [checkAuth, checkAuthStart, checkAuthSettle, axiosGet, Store.getItem, ht, clearToken]
  · simp [checkAuth, checkAuthStart, Store.getItem, ht]

/-- C20, evaluated on the code. The page is loaded with a non-empty stored
token, so `checkAuth` sends its request; a `login` succeeds with user `u` while
that request is pending; the request then fails (`success = false`, or it
throws). Afterwards `user` is `u`, yet no token is stored and there is no
`Authorization` header: the failure branch of `checkAuth` removes both without
resetting `user`, as `logout` does. -/
theorem login_during_check_breaks_invariant (identifier password t : String)
    (store : Store) (r : ResponseData) (u : User) (checkReply : Outcome)
    (ht : store.getItem "token" = some t) (hne : t ≠ "")
    (hs : r.success = true) (hu : r.user = some u)
    (hf : (∃ d, checkReply = .resolved d ∧ d.success = false)
      ∨ (∃ e, checkReply = .rejected e)) :
    (checkAuthStart (Browser.fresh store) AuthState.initial).1 = true
    ∧ (loginDuringCheck identifier password (.resolved r) checkReply
        (Browser.fresh store) AuthState.initial).2.user = some u
    ∧ (loginDuringCheck identifier password (.resolved r) checkReply
        (Browser.fresh store) AuthState.initial).1.headers.getItem "Authorization" = none
    ∧ (loginDuringCheck identifier password (.resolved r) checkReply
        (Browser.fresh store) AuthState.initial).1.localStorage.getItem "token" = none := by
  have hk : store "token" = some t := ht
  have htr : truthy (some t) = true := by simp [truthy, hne]
  rcases hf with ⟨d, rfl, hd⟩ | ⟨e, rfl⟩ <;>
    simp [loginDuringCheck, checkAuthStart, checkAuthSettle, login, axiosPost, Browser.fresh,
      Store.getItem, Store.removeItem, clearToken, saveToken, AuthState.initial, hk, htr, hs,
      hu, *]

theorem login_during_check_breaks_invariant_witness :
    ((Store.empty.setItem "token" "old").getItem "token" = some "old" ∧ "old" ≠ ""
      ∧ (⟨true, none, some "new", some ⟨"7", "ann"⟩, none⟩ : ResponseData).success = true
      ∧ (⟨true, none, some "new", some ⟨"7", "ann"⟩, none⟩ : ResponseData).user
          = some ⟨"7", "ann"⟩)
    ∧ (checkAuthStart (Browser.fresh (Store.empty.setItem "token" "old"))
        AuthState.initial).1 = true
    ∧ (loginDuringCheck "ann" "pw" (.resolved ⟨true, none, some "new", some ⟨"7", "ann"⟩, none⟩)
        (.resolved ⟨false, some "jwt expired", none, none, none⟩)
        (Browser.fresh (Store.empty.setItem "token" "old")) AuthState.initial).2.user
        = some ⟨"7", "ann"⟩
    ∧ (loginDuringCheck "ann" "pw" (.resolved ⟨true, none, some "new", some ⟨"7", "ann"⟩, none⟩)
        (.resolved ⟨false, some "jwt expired", none, none, none⟩)
        (Browser.fresh (Store.empty.setItem "token" "old")) AuthState.initial
      ).1.headers.getItem "Authorization" = none
    ∧ (loginDuringCheck "ann" "pw" (.resolved ⟨true, none, some "new", some ⟨"7", "ann"⟩, none⟩)
        (.resolved ⟨false, some "jwt expired", none, none, none⟩)
        (Browser.fresh (Store.empty.setItem "token" "old")) AuthState.initial
      ).1.localStorage.getItem "token" = none :=
  ⟨⟨rfl, by decide, rfl, rfl⟩,
    login_during_check_breaks_invariant "ann" "pw" "old" (Store.empty.setItem "token" "old")
      ⟨true, none, some "new", some ⟨"7", "ann"⟩, none⟩ ⟨"7", "ann"⟩
      (.resolved ⟨false, some "jwt expired", none, none, none⟩) rfl (by decide) rfl rfl
      (Or.inl ⟨_, rfl, rfl⟩)⟩

/-! ## Frame properties of failed requests -/

/-- C21. Failed login/signup frame: for every prior state, a logged-in one
included, a failed `login` or `signup` (a response with `success = false`, or a
thrown request) returns `false` and leaves `localStorage` (so the stored
token), the default headers (so `Authorization`) and `user` exactly as they
were; of the React state only `error` changes. -/
theorem failed_login_signup_frame (identifier password : String)
    (userData : List (String × String)) (reply : Outcome) (b : Browser) (s : AuthState)
    (hf : (∃ d, reply = .resolved d ∧ d.success = false) ∨ (∃ e, reply = .rejected e)) :
    ((login identifier password reply b s).1 = false
      ∧ (login identifier password reply b s).2.1.localStorage = b.localStorage
      ∧ (login identifier password reply b s).2.1.localStorage.getItem "token"
          = b.localStorage.getItem "token"
      ∧ (login identifier password reply b s).2.1.headers = b.headers
      ∧ (login identifier password reply b s).2.1.headers.getItem "Authorization"
          = b.headers.getItem "Authorization"
      ∧ (login identifier password reply b s).2.2.user = s.user
      ∧ ∃ msg, (login identifier password reply b s).2.2 = { s with error := some msg })
    ∧ ((signup userData reply b s).1 = false
      ∧ (signup userData reply b s).2.1.localStorage = b.localStorage
      ∧ (signup userData reply b s).2.1.localStorage.getItem "token"
          = b.localStorage.getItem "token"
      ∧ (signup userData reply b s).2.1.headers = b.headers
      ∧ (signup userData reply b s).2.1.headers.getItem "Authorization"
          = b.headers.getItem "Authorization"
      ∧ (signup userData reply b s).2.2.user = s.user
      ∧ ∃ msg, (signup userData reply b s).2.2 = { s with error := some msg }) := by
  rcases hf with ⟨d, rfl, hd⟩ | ⟨e, rfl⟩
  · refine ⟨⟨?_, ?_, ?_, ?_, ?_, ?_, orDefault d.message "Login failed", ?_⟩,
      ?_, ?_, ?_, ?_, ?_, ?_, orDefault d.message "Signup failed", ?_⟩ <;>
      simp [login, signup, axiosPost, hd]
  · refine ⟨⟨?_, ?_, ?_, ?_, ?_, ?_, orDefault e.message "An error occurred", ?_⟩,
      ?_, ?_, ?_, ?_, ?_, ?_, orDefault e.message "An error occurred", ?_⟩ <;>
      simp [login, signup, axiosPost]

theorem failed_login_signup_frame_witness :
    ((∃ d, Outcome.resolved ⟨false, some "Invalid credentials", none, none, none⟩
          = .resolved d ∧ d.success = false)
      ∨ (∃ e, Outcome.resolved ⟨false, some "Invalid credentials", none, none, none⟩
          = .rejected e))
    ∧ (login "bob" "guess" (.resolved ⟨false, some "Invalid credentials", none, none, none⟩)
        (saveToken (some "tok") (Browser.fresh Store.empty))
        { user := some ⟨"7", "ann"⟩, loading := false, error := none }).2.2.user
        = some ⟨"7", "ann"⟩
    ∧ (login "bob" "guess" (.resolved ⟨false, some "Invalid credentials", none, none, none⟩)
        (saveToken (some "tok") (Browser.fresh Store.empty))
        { user := some ⟨"7", "ann"⟩, loading := false, error := none }
      ).2.1.localStorage.getItem "token" = some "tok"
    ∧ (signup [("username", "bob")]
        (.resolved ⟨false, some "Invalid credentials", none, none, none⟩)
        (saveToken (some "tok") (Browser.fresh Store.empty))
        { user := some ⟨"7", "ann"⟩, loading := false, error := none }
      ).2.1.headers.getItem "Authorization" = some "Bearer tok" :=
  have h := failed_login_signup_frame "bob" "guess" [("username", "bob")]
    (.resolved ⟨false, some "Invalid credentials", none, none, none⟩)
    (saveToken (some "tok") (Browser.fresh Store.empty))
    { user := some ⟨"7", "ann"⟩, loading := false, error := none }
    (Or.inl ⟨_, rfl, rfl⟩)
  ⟨Or.inl ⟨_, rfl, rfl⟩, h.1.2.2.2.2.2.1, h.1.2.2.1.trans (by decide),
    h.2.2.2.2.2.1.trans (by decide)⟩

/-- C22. Post component failure frame: for every state, a `handleLike` whose
response has `success = false` or whose request throws leaves the whole state,
so `isLiked` and `likeCount`, unchanged, and a failed `handleSave` likewise
leaves `isSaved` unchanged; and whatever the outcome, `handleLike` never
changes `isSaved` or the comments list and `handleSave` never changes
`isLiked`, `likeCount` or the comments list. -/
theorem post_failure_frame (post : Post) (reply outcome : Outcome) (b : Browser)
    (s : PostState)
    (hf : (∃ d, reply = .resolved d ∧ d.success = false) ∨ (∃ e, reply = .rejected e)) :
    (handleLike post reply b s).2 = s
    ∧ (handleLike post reply b s).2.isLiked = s.isLiked
    ∧ (handleLike post reply b s).2.likeCount = s.likeCount
    ∧ (handleSave post reply b s).2 = s
    ∧ (handleSave post reply b s).2.isSaved = s.isSaved
    ∧ (handleLike post outcome b s).2.isSaved = s.isSaved
    ∧ (handleLike post outcome b s).2.comments = s.comments
    ∧ (handleLike post outcome b s).2.showAllComments = s.showAllComments
    ∧ (handleSave post outcome b s).2.isLiked = s.isLiked
    ∧ (handleSave post outcome b s).2.likeCount = s.likeCount
    ∧ (handleSave post outcome b s).2.comments = s.comments
    ∧ (handleSave post outcome b s).2.showAllComments = s.showAllComments := by
  have hl : (handleLike post reply b s).2 = s := by
    rcases hf with ⟨d, rfl, hd⟩ | ⟨e, rfl⟩ <;> simp [handleLike, axiosPost, *]
  have hsv : (handleSave post reply b s).2 = s := by
    rcases hf with ⟨d, rfl, hd⟩ | ⟨e, rfl⟩ <;> simp [handleSave, axiosPost, *]
  refine ⟨hl, by rw [hl], by rw [hl], hsv, by rw [hsv], ?_, ?_, ?_, ?_, ?_, ?_, ?_⟩ <;>
    (cases outcome with
      | resolved d => cases hd : d.success <;> simp [handleLike, handleSave, axiosPost, hd]
      | rejected e => simp [handleLike, handleSave, axiosPost])

theorem post_failure_frame_witness :
    ((∃ d, Outcome.resolved ⟨false, none, none, none, none⟩ = .resolved d ∧ d.success = false)
      ∨ (∃ e, Outcome.resolved ⟨false, none, none, none, none⟩ = .rejected e))
    ∧ (handleLike ⟨"p1", ["7"], none⟩ (.resolved ⟨false, none, none, none, none⟩)
        (Browser.fresh Store.empty) (PostState.initial ⟨"p1", ["7"], none⟩ ⟨"7", "ann"⟩ false)).2
        = PostState.initial ⟨"p1", ["7"], none⟩ ⟨"7", "ann"⟩ false
    ∧ (handleSave ⟨"p1", ["7"], none⟩ (.resolved ⟨true, none, none, none, none⟩)
        (Browser.fresh Store.empty)
        (PostState.initial ⟨"p1", ["7"], none⟩ ⟨"7", "ann"⟩ false)).2.likeCount
        = (PostState.initial ⟨"p1", ["7"], none⟩ ⟨"7", "ann"⟩ false).likeCount :=
  have h := post_failure_frame ⟨"p1", ["7"], none⟩ (.resolved ⟨false, none, none, none, none⟩)
    (.resolved ⟨true, none, none, none, none⟩) (Browser.fresh Store.empty)
    (PostState.initial ⟨"p1", ["7"], none⟩ ⟨"7", "ann"⟩ false) (Or.inl ⟨_, rfl, rfl⟩)
  ⟨Or.inl ⟨_, rfl, rfl⟩, h.1, h.2.2.2.2.2.2.2.2.2.1⟩

end Web

namespace IOS

/-- The condition tested by `signup`, as a proposition. -/
theorem signup_condition (email username password : SwiftString) :
    (email.contains { scalars := ['@'] } && decide (username.length ≥ 3)
        && decide (password.length ≥ 6)) = true
      ↔ (({ scalars := ['@'] } : Character) ∈ email ∧ 3 ≤ username.length
          ∧ 6 ≤ password.length) := by
  simp [and_assoc]

/-- C7. `AuthViewModel.signup` validation: for all inputs, a completed signup
authenticates exactly when the email contains `@`, the username has at least 3
characters and the password has at least 6: then `isAuthenticated` is `true`
and `user` carries the given username and full name; otherwise a non-empty
error is set and `isAuthenticated` and `user` are left as they were. Started
unauthenticated, `isAuthenticated` is `true` afterwards if and only if the
input is valid. The input `a@b.com`, `abc`, `secret1` succeeds; the same input
with username `ab` fails. -/
theorem signup_validation (email username fullName password : SwiftString)
    (vm : AuthViewModel) :
    ((({ scalars := ['@'] } : Character) ∈ email ∧ 3 ≤ username.length ∧ 6 ≤ password.length) →
        (signup email username fullName password vm).isAuthenticated = true
        ∧ (∃ u, (signup email username fullName password vm).user = some u
            ∧ u.username = username ∧ u.fullName = fullName)
        ∧ (signup email username fullName password vm).error = none)
    ∧ (¬ (({ scalars := ['@'] } : Character) ∈ email ∧ 3 ≤ username.length
          ∧ 6 ≤ password.length) →
        (signup email username fullName password vm).isAuthenticated = vm.isAuthenticated
        ∧ (signup email username fullName password vm).user = vm.user
        ∧ ∃ e, (signup email username fullName password vm).error = some e ∧ e ≠ [])
    ∧ (vm.isAuthenticated = false →
        ((signup email username fullName password vm).isAuthenticated = true
          ↔ (({ scalars := ['@'] } : Character) ∈ email ∧ 3 ≤ username.length
              ∧ 6 ≤ password.length)))
    ∧ (signup email username fullName password vm).isLoading = false
    ∧ (signup (lit "a@b.com") (lit "abc") fullName (lit "secret1")
        AuthViewModel.initial).isAuthenticated = true
    ∧ (signup (lit "a@b.com") (lit "ab") fullName (lit "secret1")
        AuthViewModel.initial).isAuthenticated = false
    ∧ (signup (lit "a@b.com") (lit "ab") fullName (lit "secret1")
        AuthViewModel.initial).error
        = some (lit "Invalid input. Please check your information.") := by
  have hc := signup_condition email username password
  refine ⟨?_, ?_, ?_, ?_, ?_, ?_, ?_⟩
  · intro hv
    have hb := hc.mpr hv
    refine ⟨?_, ⟨User.init (lit "1") username fullName, ?_, rfl, rfl⟩, ?_⟩ <;>
      simp only [signup, hb, if_true]
  · intro hv
    have hb : (email.contains { scalars := ['@'] } && decide (username.length ≥ 3)
        && decide (password.length ≥ 6)) = false := by
      rw [← Bool.not_eq_true]
      exact fun h => hv (hc.mp h)
    refine ⟨?_, ?_, lit "Invalid input. Please check your information.", ?_, by decide⟩ <;>
      simp only [signup, hb] <;> rfl
  · intro hu
    rw [← hc]
    cases hb : (email.contains { scalars := ['@'] } && decide (username.length ≥ 3)
        && decide (password.length ≥ 6))
    · simp only [signup, hb]
      simpa using hu
    · simp only [signup, hb, if_true]
  · cases hb : (email.contains { scalars := ['@'] } && decide (username.length ≥ 3)
        && decide (password.length ≥ 6)) <;> simp only [signup, hb] <;> rfl
  · rfl
  · rfl
  · rfl

theorem signup_validation_witness :
    (signup (lit "a@b.com") (lit "abc") (lit "Ann B") (lit "secret1")
        AuthViewModel.initial).isAuthenticated = true
    ∧ (signup (lit "a@b.com") (lit "abc") (lit "Ann B") (lit "secret1")
        AuthViewModel.initial).user = some (User.init (lit "1") (lit "abc") (lit "Ann B"))
    ∧ (signup (lit "a@b.com") (lit "ab") (lit "Ann B") (lit "secret1")
        AuthViewModel.initial).isAuthenticated = false
    ∧ (signup (lit "ab.com") (lit "abc") (lit "Ann B") (lit "secret1")
        AuthViewModel.initial).user = none
    ∧ (signup (lit "a@b.com") (lit "abc") (lit "Ann B") (lit "secr1")
        AuthViewModel.initial).isAuthenticated = false :=
  ⟨((signup_validation (lit "a@b.com") (lit "abc") (lit "Ann B") (lit "secret1")
        AuthViewModel.initial).1 (by decide)).1,
    by decide,
    ((signup_validation (lit "a@b.com") (lit "ab") (lit "Ann B") (lit "secret1")
        AuthViewModel.initial).2.1 (by decide)).1,
    ((signup_validation (lit "ab.com") (lit "abc") (lit "Ann B") (lit "secret1")
        AuthViewModel.initial).2.1 (by decide)).2.1,
    ((signup_validation (lit "a@b.com") (lit "abc") (lit "Ann B") (lit "secr1")
        AuthViewModel.initial).2.1 (by decide)).1⟩

/-- C18. `AuthViewModel.login`: for all inputs, a completed login authenticates
(`isAuthenticated = true`, `user` set) exactly when the identifier lower-cased
equals `test` and the password equals `password`; every other input sets the
non-empty error `Invalid credentials`, sets `isLoading` to `false` and leaves
`isAuthenticated` and `user` as they were, hence unset from the initial state.
Started unauthenticated, `isAuthenticated` is `true` afterwards if and only if
the credentials are those. -/
theorem login_credentials (lowercased : SwiftString → SwiftString)
    (identifier password : SwiftString) (vm : AuthViewModel) :
    ((lowercased identifier = lit "test" ∧ password = lit "password") →
        (login lowercased identifier password vm).isAuthenticated = true
        ∧ (login lowercased identifier password vm).user
            = some (User.init (lit "1") (lit "test_user") (lit "Test User"))
        ∧ (login lowercased identifier password vm).error = none
        ∧ (login lowercased identifier password vm).isLoading = false)
    ∧ (¬ (lowercased identifier = lit "test" ∧ password = lit "password") →
        (login lowercased identifier password vm).error = some (lit "Invalid credentials")
        ∧ lit "Invalid credentials" ≠ []
        ∧ (login lowercased identifier password vm).isLoading = false
        ∧ (login lowercased identifier password vm).isAuthenticated = vm.isAuthenticated
        ∧ (login lowercased identifier password vm).user = vm.user)
    ∧ (vm.isAuthenticated = false →
        ((login lowercased identifier password vm).isAuthenticated = true
          ↔ (lowercased identifier = lit "test" ∧ password = lit "password")))
    ∧ (¬ (lowercased identifier = lit "test" ∧ password = lit "password") →
        (login lowercased identifier password AuthViewModel.initial).isAuthenticated = false
        ∧ (login lowercased identifier password AuthViewModel.initial).user = none) := by
  have hc : (lowercased identifier == lit "test" && password == lit "password") = true
      ↔ (lowercased identifier = lit "test" ∧ password = lit "password") := by
    simp
  refine ⟨?_, ?_, ?_, ?_⟩
  · intro hv
    have hb := hc.mpr hv
    refine ⟨?_, ?_, ?_, ?_⟩ <;> simp only [login, hb, if_true]
  · intro hv
    have hb : (lowercased identifier == lit "test" && password == lit "password") = false := by
      rw [← Bool.not_eq_true]
      exact fun h => hv (hc.mp h)
    refine ⟨?_, by decide, ?_, ?_, ?_⟩ <;> simp only [login, hb] <;> rfl
  · intro hu
    rw [← hc]
    cases hb : (lowercased identifier == lit "test" && password == lit "password")
    · simp only [login, hb]
      simpa using hu
    · simp only [login, hb, if_true]
  · intro hv
    have hb : (lowercased identifier == lit "test" && password == lit "password") = false := by
      rw [← Bool.not_eq_true]
      exact fun h => hv (hc.mp h)
    constructor <;> simp only [login, hb] <;> rfl

theorem login_credentials_witness :
    (login asciiLowercased (lit "TeSt") (lit "password") AuthViewModel.initial).isAuthenticated
        = true
    ∧ (login asciiLowercased (lit "test") (lit "Password") AuthViewModel.initial).error
        = some (lit "Invalid credentials")
    ∧ (login asciiLowercased (lit "tester") (lit "password") AuthViewModel.initial).user
        = none :=
  ⟨((login_credentials asciiLowercased (lit "TeSt") (lit "password")
        AuthViewModel.initial).1 (by decide)).1,
    ((login_credentials asciiLowercased (lit "test") (lit "Password")
        AuthViewModel.initial).2.1 (by decide)).1,
    ((login_credentials asciiLowercased (lit "tester") (lit "password")
        AuthViewModel.initial).2.2.2 (by decide)).2⟩

/-! ## `AuthViewModel`: invariant over sequences of calls -/

theorem authenticated_iff_user_login (lowercased : SwiftString → SwiftString)
    (identifier password : SwiftString) (vm : AuthViewModel)
    (h : vm.isAuthenticated = true ↔ vm.user ≠ none) :
    (login lowercased identifier password vm).isAuthenticated = true
      ↔ (login lowercased identifier password vm).user ≠ none := by
  cases hb : (lowercased identifier == lit "test" && password == lit "password")
  · simp only [login, hb]
    exact h
  · simp only [login, hb, if_true]
    simp

theorem authenticated_iff_user_signup (email username fullName password : SwiftString)
    (vm : AuthViewModel) (h : vm.isAuthenticated = true ↔ vm.user ≠ none) :
    (signup email username fullName password vm).isAuthenticated = true
      ↔ (signup email username fullName password vm).user ≠ none := by
  cases hb : (email.contains { scalars := ['@'] } && decide (username.length ≥ 3)
      && decide (password.length ≥ 6))
  · simp only [signup, hb]
    exact h
  · simp only [signup, hb, if_true]
    simp

theorem authenticated_iff_user_run (lowercased : SwiftString → SwiftString) (call : AuthCall)
    (vm : AuthViewModel) (h : vm.isAuthenticated = true ↔ vm.user ≠ none) :
    (call.run lowercased vm).isAuthenticated = true ↔ (call.run lowercased vm).user ≠ none := by
  cases call with
  | login identifier password => exact authenticated_iff_user_login _ _ _ _ h
  | signup email username fullName password => exact authenticated_iff_user_signup _ _ _ _ _ h
  | logout => simp [AuthCall.run, logout]

theorem authenticated_iff_user_runCalls (lowercased : SwiftString → SwiftString)
    (calls : List AuthCall) (vm : AuthViewModel)
    (h : vm.isAuthenticated = true ↔ vm.user ≠ none) :
    (runCalls lowercased calls vm).isAuthenticated = true
      ↔ (runCalls lowercased calls vm).user ≠ none := by
  induction calls generalizing vm with
  | nil => exact h
  | cons call rest ih =>
    simp only [runCalls, List.foldl_cons]
    exact ih _ (authenticated_iff_user_run lowercased call vm h)

/-- C23. `AuthViewModel` session invariant: from the initial state
(`isAuthenticated = false`, `user = nil`), after any finite sequence of
completed `login`, `signup` and `logout` calls with arbitrary arguments,
`isAuthenticated` is `true` if and only if `user` is non-nil; and `logout`,
from any state and so also at the end of any such sequence, yields
`isAuthenticated = false` and `user = nil`. -/
theorem viewModel_session_invariant (lowercased : SwiftString → SwiftString)
    (calls : List AuthCall) (vm : AuthViewModel) :
    AuthViewModel.initial.isAuthenticated = false
    ∧ AuthViewModel.initial.user = none
    ∧ ((runCalls lowercased calls AuthViewModel.initial).isAuthenticated = true
        ↔ (runCalls lowercased calls AuthViewModel.initial).user ≠ none)
    ∧ (logout vm).isAuthenticated = false
    ∧ (logout vm).user = none
    ∧ (runCalls lowercased (calls ++ [.logout]) AuthViewModel.initial).isAuthenticated = false
    ∧ (runCalls lowercased (calls ++ [.logout]) AuthViewModel.initial).user = none := by
  refine ⟨rfl, rfl, ?_, rfl, rfl, ?_, ?_⟩
  · exact authenticated_iff_user_runCalls lowercased calls _ (by simp [AuthViewModel.initial])
  · simp [runCalls, List.foldl_append, AuthCall.run, logout]
  · simp [runCalls, List.foldl_append, AuthCall.run, logout]

theorem viewModel_session_invariant_witness :
    (runCalls asciiLowercased
        [ .login (lit "nobody") (lit "guess"),
          .signup (lit "a@b.com") (lit "abc") (lit "Ann B") (lit "secret1"),
          .login (lit "test") (lit "wrong") ]
        AuthViewModel.initial).isAuthenticated = true
    ∧ (runCalls asciiLowercased
        [ .login (lit "nobody") (lit "guess"),
          .signup (lit "a@b.com") (lit "abc") (lit "Ann B") (lit "secret1"),
          .login (lit "test") (lit "wrong") ]
        AuthViewModel.initial).user ≠ none :=
  ⟨by decide,
    (viewModel_session_invariant asciiLowercased
      [ .login (lit "nobody") (lit "guess"),
        .signup (lit "a@b.com") (lit "abc") (lit "Ann B") (lit "secret1"),
        .login (lit "test") (lit "wrong") ] AuthViewModel.initial).2.2.1.mp (by decide)⟩

end IOS

namespace Backend

/-! ## Helper lemmas on the line of handlers -/

theorem mem_of_mem_run (c : Handler → Bool) (h : Handler) (l : List Handler)
    (hm : h ∈ run c l) : h ∈ l := by
  induction l with
  | nil => simp [run] at hm
  | cons a l ih =>
    simp only [run, List.mem_cons] at hm ⊢
    rcases hm with rfl | hm
    · exact Or.inl rfl
    · by_cases hc : c a = true
      · rw [if_pos hc] at hm
        exact Or.inr (ih hm)
      · rw [if_neg hc] at hm
        simp at hm

theorem mem_run_append (c : Handler → Bool) (h : Handler) (l1 l2 : List Handler)
    (hm : h ∈ run c (l1 ++ l2)) : h ∈ run c l1 ∨ h ∈ run c l2 := by
  induction l1 with
  | nil => exact Or.inr (by simpa using hm)
  | cons a l ih =>
    simp only [List.cons_append, run, List.mem_cons] at hm ⊢
    rcases hm with rfl | hm
    · exact Or.inl (Or.inl rfl)
    · by_cases hc : c a = true
      · rw [if_pos hc] at hm ⊢
        rcases ih hm with h1 | h2
        · exact Or.inl (Or.inr h1)
        · exact Or.inr h2
      · rw [if_neg hc] at hm
        simp at hm

/-- A router that each registration either leaves out or lists right after
`verifyToken` only runs when `verifyToken` has called `next()`. -/
theorem gate_passed_of_mem_run (c : Handler → Bool) (r : Handler) (hr : r ≠ .verifyToken)
    (ms : List Mount)
    (hms : ∀ m ∈ ms, r ∈ m.handlers → m.handlers = [.verifyToken, r])
    (hm : r ∈ run c (ms.flatMap fun m => m.handlers)) : c .verifyToken = true := by
  induction ms with
  | nil => simp [run] at hm
  | cons m ms ih =>
    rw [List.flatMap_cons] at hm
    rcases mem_run_append c r _ _ hm with h1 | h2
    · have hin := mem_of_mem_run c r _ h1
      have hh := hms m (List.mem_cons_self _ _) hin
      rw [hh] at h1
      simp only [run, List.mem_cons] at h1
      rcases h1 with h1 | h1
      · exact absurd h1 hr
      · by_cases hc : c .verifyToken = true
        · exact hc
        · rw [if_neg hc] at h1
          simp at h1
    · exact ih (fun m2 hm2 => hms m2 (List.mem_cons_of_mem _ hm2)) h2

theorem sameSegment_of_same (x y b : String) (hx : sameSegment x b = true) :
    sameSegment y b = (lower y == lower x) := by
  unfold sameSegment at hx ⊢
  have h : lower x = lower b := by simpa using hx
  rw [h]

/-- The line of handlers for a request whose path starts with `/api/<name>`
where `<name>` is one of the five protected names. -/
theorem stack_of_protected (req : Request) (p : List String × Handler)
    (hp : p ∈ protectedRouters) (hpre : startsWith p.1 req.path = true) :
    stack req = [.cors, .jsonParser, .urlencodedParser, .verifyToken, p.2] := by
  obtain ⟨method, path⟩ := req
  simp only [protectedRouters, List.mem_cons, List.mem_singleton, List.not_mem_nil,
    or_false] at hp
  rcases hp with rfl | rfl | rfl | rfl | rfl
  all_goals
    match path, hpre with
    | [], h => simp [startsWith] at h
    | [_], h => simp [startsWith] at h
    | a :: b :: rest, h =>
      simp only [startsWith, Bool.and_eq_true, and_true] at h
      obtain ⟨ha, hb⟩ := h
      have e1 := sameSegment_of_same _ "auth" b hb
      have e2 := sameSegment_of_same _ "posts" b hb
      have e3 := sameSegment_of_same _ "users" b hb
      have e4 := sameSegment_of_same _ "comments" b hb
      have e5 := sameSegment_of_same _ "upload" b hb
      have e6 := sameSegment_of_same _ "messages" b hb
      have f1 : sameSegment "auth" b = false := e1.trans (by decide)
      first
        | have f2 : sameSegment "posts" b = false := e2.trans (by decide)
        | have f2 : sameSegment "posts" b = true := e2.trans (by decide)
      first
        | have f3 : sameSegment "users" b = false := e3.trans (by decide)
        | have f3 : sameSegment "users" b = true := e3.trans (by decide)
      first
        | have f4 : sameSegment "comments" b = false := e4.trans (by decide)
        | have f4 : sameSegment "comments" b = true := e4.trans (by decide)
      first
        | have f5 : sameSegment "upload" b = false := e5.trans (by decide)
        | have f5 : sameSegment "upload" b = true := e5.trans (by decide)
      first
        | have f6 : sameSegment "messages" b = false := e6.trans (by decide)
        | have f6 : sameSegment "messages" b = true := e6.trans (by decide)
      simp [stack, middleware, routes, List.filter, Mount.applies, startsWith, ha,
        f1, f2, f3, f4, f5, f6]

/-- C9. Route table: each protected prefix (`/api/posts`, `/api/users`,
`/api/comments`, `/api/upload`, `/api/messages`) is registered exactly once,
with `verifyToken` immediately before its router; a protected router is listed
nowhere else; the registrations of the route table without `verifyToken` are
exactly `/api/auth` and the root endpoint. For every request under a protected
prefix the line of handlers is the global middleware, then `verifyToken`, then
the router; and whatever the handlers do, a protected router runs only after
`verifyToken` has called `next()`. -/
theorem protected_routes_pass_verifyToken (callsNext : Handler → Request → Bool)
    (req : Request) :
    (∀ p ∈ protectedRouters,
        routes.filter (fun m => m.path == p.1)
          = [{ verb := .use, path := p.1, handlers := [.verifyToken, p.2] }])
    ∧ (∀ m ∈ middleware ++ routes, ∀ p ∈ protectedRouters,
        p.2 ∈ m.handlers → m.path = p.1 ∧ m.handlers = [.verifyToken, p.2])
    ∧ routes.filter (fun m => !m.handlers.contains .verifyToken)
        = [ { verb := .use, path := ["api", "auth"], handlers := [.authRoutes] },
            { verb := .get, path := [], handlers := [.rootEndpoint] } ]
    ∧ (∀ p ∈ protectedRouters, startsWith p.1 req.path = true →
        stack req = [.cors, .jsonParser, .urlencodedParser, .verifyToken, p.2])
    ∧ (∀ p ∈ protectedRouters, p.2 ∈ dispatch callsNext req →
        callsNext .verifyToken req = true)
    ∧ (∀ p ∈ protectedRouters, startsWith p.1 req.path = true →
        callsNext .verifyToken req = false → p.2 ∉ dispatch callsNext req) := by
  have table : ∀ m ∈ middleware ++ routes, ∀ p ∈ protectedRouters,
      p.2 ∈ m.handlers → m.path = p.1 ∧ m.handlers = [.verifyToken, p.2] := by decide
  have distinct : ∀ p ∈ protectedRouters, p.2 ≠ Handler.verifyToken := by decide
  have gate : ∀ p ∈ protectedRouters, p.2 ∈ dispatch callsNext req →
      callsNext .verifyToken req = true := by
    intro p hp hm
    refine gate_passed_of_mem_run (fun h => callsNext h req) p.2 (distinct p hp)
      ((middleware ++ routes).filter fun m => m.applies req) ?_ hm
    intro m hmem hin
    exact (table m (List.mem_of_mem_filter hmem) p hp hin).2
  refine ⟨by decide, table, by decide, ?_, gate, ?_⟩
  · intro p hp hpre
    exact stack_of_protected req p hp hpre
  · intro p hp _ hrej hm
    rw [gate p hp hm] at hrej
    exact absurd hrej (by decide)

theorem protected_routes_pass_verifyToken_witness :
    stack { method := "GET", path := ["api", "posts", "feed"] }
        = [.cors, .jsonParser, .urlencodedParser, .verifyToken, .postRoutes]
    ∧ Handler.postRoutes ∉
        dispatch (fun h _ => h != .verifyToken) { method := "GET", path := ["api", "posts", "feed"] }
    ∧ dispatch (fun h _ => h != .verifyToken) { method := "GET", path := ["API", "Posts", "feed"] }
        = [.cors, .jsonParser, .urlencodedParser, .verifyToken] :=
  ⟨(protected_routes_pass_verifyToken (fun h _ => h != .verifyToken)
        { method := "GET", path := ["api", "posts", "feed"] }).2.2.2.1
        (["api", "posts"], .postRoutes) (by decide) (by decide),
    (protected_routes_pass_verifyToken (fun h _ => h != .verifyToken)
        { method := "GET", path := ["api", "posts", "feed"] }).2.2.2.2.2
        (["api", "posts"], .postRoutes) (by decide) (by decide) (by decide),
    by decide⟩

end Backend

namespace Models

open Mongoose

/-- C11, the failing input. A post created with an owner and no image is
accepted by the schema of `models/Post.js` and by the `PostSchema` literal of
the database schema file alike: `required: true` sits on the element of
`images`, so it constrains each image reference and not their number, and
`images` is the empty array. -/
theorem post_without_images_is_accepted :
    validate PostSchema (create PostSchema 0 [("user", .scalar (.objectId "u1"))]) = []
    ∧ (create PostSchema 0 [("user", .scalar (.objectId "u1"))]).get "images" = .array []
    ∧ validate PostSchema
        (create PostSchema 0
          [("user", .scalar (.objectId "u1")), ("images", .array [])]) = []
    ∧ validate Database.PostSchema
        (create Database.PostSchema 0
          [("user", .scalar (.objectId "u1")), ("images", .array [])]) = []
    ∧ validate PostSchema
        (create PostSchema 0
          [("user", .scalar (.objectId "u1")), ("images", .array [.string ""])])
        = [{ path := "images", index := some 0, kind := .required }] := by
  refine ⟨?_, ?_, ?_, ?_, ?_⟩ <;> decide

theorem get_set_same (doc : Document) (name : String) (value : Value) :
    (doc.set name value).get name = value := by
  simp [Document.get, Document.set, List.lookup]

/-- C15. Post model virtuals: for every Post document, `likeCount` is the
length of its `likes` list and `commentCount` the length of its `comments`
list; appending one user id to `likes` raises `likeCount` by exactly 1 and
removing it again restores the previous value. A post created without likes
or comments has both counts at 0. -/
theorem virtual_counts (doc : Document) (likes comments : List Scalar) (u : Scalar)
    (hl : doc.get "likes" = .array likes) (hc : doc.get "comments" = .array comments) :
    likeCount doc = some likes.length
    ∧ commentCount doc = some comments.length
    ∧ likeCount (doc.set "likes" (.array (likes ++ [u]))) = some (likes.length + 1)
    ∧ likeCount (doc.set "likes" (.array ((likes ++ [u]).erase u))) = some likes.length
    ∧ likeCount (create PostSchema 0 [("user", .scalar (.objectId "u1"))]) = some 0
    ∧ commentCount (create PostSchema 0 [("user", .scalar (.objectId "u1"))]) = some 0 := by
  refine ⟨?_, ?_, ?_, ?_, by decide, by decide⟩
  · simp [likeCount, hl]
  · simp [commentCount, hc]
  · simp [likeCount, get_set_same]
  · have hm : u ∈ likes ++ [u] := by simp
    simp [likeCount, get_set_same, List.length_erase_of_mem hm]

theorem virtual_counts_witness :
    (Document.get [("likes", .array [.objectId "a", .objectId "b"]), ("comments", .array [])]
          "likes" = .array [.objectId "a", .objectId "b"]
      ∧ Document.get [("likes", .array [.objectId "a", .objectId "b"]), ("comments", .array [])]
          "comments" = .array [])
    ∧ likeCount [("likes", .array [.objectId "a", .objectId "b"]), ("comments", .array [])]
        = some 2
    ∧ likeCount
        (Document.set [("likes", .array [.objectId "a", .objectId "b"]), ("comments", .array [])]
          "likes" (.array ([.objectId "a", .objectId "b"] ++ [.objectId "a"]))) = some (2 + 1) :=
  have h := virtual_counts
    [("likes", .array [.objectId "a", .objectId "b"]), ("comments", .array [])]
    [.objectId "a", .objectId "b"] [] (.objectId "a") (by decide) (by decide)
  ⟨⟨by decide, by decide⟩, h.1, h.2.2.1⟩

end Models

namespace Database

open Mongoose

theorem get_set_of_ne (doc : Document) (name n : String) (value : Value) (h : n ≠ name) :
    (doc.set name value).get n = doc.get n := by
  have hb : (n == name) = false := by simpa using h
  simp [Document.get, Document.set, List.lookup, hb]

/-- Applying defaults leaves alone every path that has none. -/
theorem get_applyDefaults_of_no_default (now : Int) (n : String)
    (paths : List (String × Path)) (doc : Document)
    (h : ∀ p ∈ paths, p.1 = n → p.2.defaultValue now = .undefined) :
    (applyDefaults now paths doc).get n = doc.get n := by
  induction paths generalizing doc with
  | nil => rfl
  | cons p rest ih =>
    obtain ⟨name, path⟩ := p
    simp only [applyDefaults]
    rw [ih _ (fun q hq => h q (List.mem_cons_of_mem _ hq))]
    split
    · rfl
    · rename_i hv hne
      by_cases hn : n = name
      · subst hn
        exact absurd (h (n, path) (List.mem_cons_self _ _) rfl) (fun hd => hne hd)
      · exact get_set_of_ne _ _ _ _ hn
    · rfl

/-- C13, as stated, fails. A story created at time 1000 with `expiresAt` one
millisecond later is accepted by `StorySchema`, keeps the `expiresAt` it was
given while `createdAt` defaults to 1000, and 1001 is not 24 hours after 1000. -/
theorem story_expiry_counterexample :
    validate StorySchema
        (create StorySchema 1000
          [ ("user", .scalar (.objectId "u1")), ("media", .scalar (.string "m.jpg")),
            ("expiresAt", .scalar (.date 1001)) ]) = []
    ∧ (create StorySchema 1000
          [ ("user", .scalar (.objectId "u1")), ("media", .scalar (.string "m.jpg")),
            ("expiresAt", .scalar (.date 1001)) ]).get "createdAt" = .scalar (.date 1000)
    ∧ (create StorySchema 1000
          [ ("user", .scalar (.objectId "u1")), ("media", .scalar (.string "m.jpg")),
            ("expiresAt", .scalar (.date 1001)) ]).get "expiresAt" = .scalar (.date 1001)
    ∧ (1001 : Int) ≠ 1000 + dayMs := by
  refine ⟨?_, ?_, ?_, ?_⟩ <;> decide

/-- C13, amended. For every Story document created under `StorySchema`,
`expiresAt` is the value its creator supplied: the schema has no default for it
and never derives it from `createdAt`. The field is required, so a story is
accepted only when the creator supplied a date, and one created without it is
rejected; the check of `expiresAt` passes on any date, whatever its distance
from the creation time. -/
theorem story_expiry_is_supplied (now : Int) (fields : Document) :
    (create StorySchema now fields).get "expiresAt" = fields.get "expiresAt"
    ∧ (validate StorySchema (create StorySchema now fields) = [] →
        ∃ ms, fields.get "expiresAt" = .scalar (.date ms))
    ∧ (fields.get "expiresAt" = .undefined →
        { path := "expiresAt", index := none, kind := .required }
          ∈ validate StorySchema (create StorySchema now fields))
    ∧ (∀ ms : Int, fields.get "expiresAt" = .scalar (.date ms) →
        validatePath "expiresAt" (.single { Options.ofType .date with required := true })
          ((create StorySchema now fields).get "expiresAt") = []) := by
  have hget : (create StorySchema now fields).get "expiresAt" = fields.get "expiresAt" :=
    get_applyDefaults_of_no_default now "expiresAt" StorySchema.paths fields
      (by simp [StorySchema, Path.defaultValue, Options.ofType])
  have hpath : ("expiresAt", Path.single { Options.ofType .date with required := true })
      ∈ StorySchema.paths := by decide
  refine ⟨hget, ?_, ?_, ?_⟩
  · intro hv
    have hall := List.flatMap_eq_nil_iff.mp hv _ hpath
    simp only [hget] at hall
    cases hx : fields.get "expiresAt" with
    | undefined => simp [hx, validatePath, Options.ofType] at hall
    | scalar v =>
      cases v with
      | date ms => exact ⟨ms, rfl⟩
      | null => simp [hx, validatePath, checkScalar, Options.ofType] at hall
      | string x => simp [hx, validatePath, checkScalar, Options.ofType] at hall
      | objectId x => simp [hx, validatePath, checkScalar, Options.ofType, Scalar.hasType] at hall
      | boolean x => simp [hx, validatePath, checkScalar, Options.ofType, Scalar.hasType] at hall
    | array xs => simp [hx, validatePath] at hall
  · intro hx
    simp only [validate, List.mem_flatMap]
    refine ⟨_, hpath, ?_⟩
    simp [hget, hx, validatePath, Options.ofType]
  · intro ms hx
    simp [hget, hx, validatePath, checkScalar, Options.ofType, Scalar.hasType]

theorem story_expiry_is_supplied_witness :
    validate StorySchema
        (create StorySchema 1000
          [ ("user", .scalar (.objectId "u1")), ("media", .scalar (.string "m.jpg")) ])
      = [{ path := "expiresAt", index := none, kind := .required }]
    ∧ (create StorySchema 1000
          [ ("user", .scalar (.objectId "u1")), ("media", .scalar (.string "m.jpg")),
            ("expiresAt", .scalar (.date (1000 + dayMs))) ]).get "expiresAt"
        = Document.get
            [ ("user", .scalar (.objectId "u1")), ("media", .scalar (.string "m.jpg")),
              ("expiresAt", .scalar (.date (1000 + dayMs))) ] "expiresAt" :=
  ⟨by decide,
    (story_expiry_is_supplied 1000
      [ ("user", .scalar (.objectId "u1")), ("media", .scalar (.string "m.jpg")),
        ("expiresAt", .scalar (.date (1000 + dayMs))) ]).1⟩

end Database

end GraphicGram
